import Mathlib

/-!
# The process (environment) subsystem of riscv-mos: `kern/env.c`

A shallow embedding of the process table, the ASID allocator and the id scheme of
`kern/env.c`, with the properties of its specification proved about it.

Conventions of the embedding:

* a `struct Env *` is the index of the slot in `envs` (`e - envs`), `NULL` is `none`;
* the runnable queue is the intrusive `TAILQ` it is in C: the head pointers, the two link
  pointers of every slot, and the `TAILQ` operations written out store by store, so that a
  removal of a slot that is not on the queue does what the C code does; a store through a
  `NULL` pointer is a fault, recorded in the state;
* C `u_int` / `uint32_t` values are natural numbers, reduced modulo `2 ^ 32` where the
  C arithmetic can overflow;
* a C function returning `0` or `-E_X` returns `Except Errno _`: `.ok v` is the return
  value `0` with `v` stored through the out-pointer, `.error E_X` is the return value
  `-E_X` with the out-pointer left alone. The kernel state after the call is returned
  next to it, since the C code mutates globals on its error paths too;
* page-table memory lives in `pmap.c`, outside this file: what a `pmap` routine leaves
  in `e->env_pgdir` is a parameter of the operation that calls it;
* CSR writes, fences and calls of routines outside the sources are `Effect`s, listed in
  program order by `env_free_run` and `env_run`; `env_run` never returns, and ends either
  in the jump to `ret_from_exception` or at a failed `assert` (`Outcome`);
* `load_icode_mapper` runs on byte-addressed memory and on the `pmap` routines it calls,
  which are parameters (`Pmap`).
-/

namespace RiscvMos

set_option maxRecDepth 100000

/-! ## Constants and types of headers that are not part of the sources -/

/-- Modelled from the spec: the error codes of `error.h`, which is not among the sources.
`env.c` names `E_NO_FREE_ENV` and `E_BAD_ENV`; the spec calls them `NoFreeSlot` /
`NoFreeAsid` and `BadEnv`. -/
inductive Errno where
  | E_NO_FREE_ENV
  | E_BAD_ENV
  deriving DecidableEq, Repr

/-- Modelled from the spec: the values of `env_status` (`env.h` is not among the sources):
"one of `FREE`, `RUNNABLE`, `NOT_RUNNABLE`". -/
inductive EnvStatus where
  | ENV_FREE
  | ENV_RUNNABLE
  | ENV_NOT_RUNNABLE
  deriving DecidableEq, Repr

/-- Build-time constants that `env.c` takes from headers outside the sources
(`env.h`, `mmu.h`, `asm/csrdef.h`); they are parameters of the embedding. -/
structure Consts where
  LOG2NENV : Nat
  USTACKTOP : Nat
  SIE_UTIE : Nat
  SSTATUS_UIE : Nat
  deriving DecidableEq, Repr

/-- Modelled from the spec: `NENV` is the power of two "exposed via `LOG2NENV`". -/
def NENV (c : Consts) : Nat := 1 <<< c.LOG2NENV

/-- Modelled from the spec: `ENVX` of `env.h`, "`index_of(id) = id & (NENV-1)`". -/
def ENVX (c : Consts) (envid : Nat) : Nat := envid &&& (NENV c - 1)

/-- The number of ASIDs, `#define NASID 64`. -/
def NASID : Nat := 64

/-- Modelled from the spec: `struct Trapframe` of `trap.h` (not among the sources), with the
fields the spec lists and `env.c` accesses: "general registers, `sepc`, `sstatus`, `sie`,
`sscratch`, `stvec`". -/
structure Trapframe where
  regs : List Nat
  sepc : Nat
  sstatus : Nat
  sie : Nat
  sscratch : Nat
  stvec : Nat
  deriving DecidableEq, Repr

/-- Modelled from the spec: `struct Env` of `env.h` (not among the sources), with the fields
`env.c` accesses. The intrusive link `env_link` is carried by the list `env_free_list` of
`Kernel`; the link `env_sched_link` is the entry of the slot in the map `env_sched_link` of
`Kernel`. -/
structure Env where
  env_tf : Trapframe
  env_id : Nat
  env_asid : Nat
  env_parent_id : Nat
  env_status : EnvStatus
  env_pgdir : Nat
  env_pri : Int
  env_user_tlb_mod_entry : Nat
  env_runs : Nat
  deriving DecidableEq, Repr

/-- Modelled from the spec: the runnable queue is one of the "two intrusive lists", where
"each slot carries two link fields; list heads hold only pointers into the array", handled
with the `TAILQ` macros of `queue.h`, which is not among the sources. A `LinkRef` is a value
of type `struct Env **` as these macros keep it in `tqe_prev` and `tqh_last`: `NULL`, the
address of the `tqh_first` of the head `env_sched_list`, or the address of the `tqe_next` of
a slot. -/
inductive LinkRef where
  | null
  | head_first
  | next_of (slot : Nat)
  deriving DecidableEq, Repr

/-- Modelled from the spec: "`sched_link` — intrusive node for the runnable queue", the field
`env_sched_link` of a slot, a `TAILQ_ENTRY` of `queue.h` (not among the sources): `tqe_next`
is the next slot of the queue or `NULL`, and `tqe_prev` is the address of the pointer that
points to this slot. No macro clears the two fields, so a slot that has left the queue keeps
the values it had on it, and a slot that has never been on it has the two `NULL`s of the
zero-initialised array. -/
structure SchedLink where
  tqe_next : Option Nat
  tqe_prev : LinkRef
  deriving DecidableEq, Repr

/-- The globals of `env.c` that the process table and the allocators read or write:
`envs`, `curenv`, `env_free_list`, `env_sched_list`, `asid_bitmap` (a word array, indexed
by word number) and the `static u_int i` of `mkenvid`.

Modelled from the spec: the `LIST_*` list of `queue.h` (not among the sources) is a list of
slot indices, head first. The runnable queue is the intrusive `TAILQ` of `queue.h`: its head
`env_sched_list` is the pair `tqh_first`, `tqh_last`, and `env_sched_link e` is the field
`env_sched_link` of slot `e`. Next to the pointers, `env_sched_list` is the list of the
slots of the queue, head first, as a traversal from `tqh_first` along `tqe_next` visits
them; each `TAILQ` operation below updates it together with the pointers.

`fault` is not a global of `env.c`: it records that a store through a `NULL` pointer has
been reached. Such a store writes no object of the program, and the run of the kernel as
`env.c` describes it ends there: a state with `fault = true` is the state at that store, and
what the operations below make of it is no execution of the kernel. -/
structure Kernel where
  envs : Nat → Env
  curenv : Option Nat
  env_free_list : List Nat
  env_sched_list : List Nat
  asid_bitmap : Nat → Nat
  mkenvid_i : Nat
  tqh_first : Option Nat
  tqh_last : LinkRef
  env_sched_link : Nat → SchedLink
  fault : Bool

/-- Array store `a[k] = v`. -/
def store {α : Type} (a : Nat → α) (k : Nat) (v : α) : Nat → α :=
  fun j => if j = k then v else a j

/-- Bit `j` of the ASID bitmap: bit `j % 32` of word `j / 32`. -/
def asid_bit (bm : Nat → Nat) (j : Nat) : Bool := (bm (j / 32)).testBit (j % 32)

/-! ## ASID allocator -/

/-- The `for` loop of `asid_alloc`, entered with counter `i` and `n` iterations left
(`n = NASID - i`); leaving the loop is the `return -E_NO_FREE_ENV`. `inner` is at most 31,
so on 32-bit words neither `1 << inner` (read as `uint32_t` in the `&` and the `|=`) nor the
word stored overflows. -/
def asid_alloc_loop (bm : Nat → Nat) : Nat → Nat → Except Errno Nat × (Nat → Nat)
  | 0, _ => (.error .E_NO_FREE_ENV, bm)
  | n + 1, i =>
    let index := i >>> 5
    let inner := i &&& 31
    if bm index &&& (1 <<< inner) = 0 then
      (.ok i, store bm index (bm index ||| (1 <<< inner)))
    else
      asid_alloc_loop bm n (i + 1)

/-- The function `asid_alloc`: the result and the bitmap after the call. -/
def asid_alloc (bm : Nat → Nat) : Except Errno Nat × (Nat → Nat) :=
  asid_alloc_loop bm NASID 0

/-- The function `asid_free`. `~(1 << inner)` converted to `uint32_t` is
`2 ^ 32 - 1 - (1 << inner)`. The C array has two words: an `i` of 64 or more indexes past
its end, which the word map here does not forbid. -/
def asid_free (bm : Nat → Nat) (i : Nat) : Nat → Nat :=
  let index := i >>> 5
  let inner := i &&& 31
  store bm index (bm index &&& (2 ^ 32 - 1 - (1 <<< inner)))

/-! ## Identifiers -/

/-- The function `mkenvid` on the slot with index `e`, entered with the static counter at `i`:
the id returned and the counter after the call. `++i` and the shift are `u_int`
operations, and the result is returned as `u_int`. -/
def mkenvid (c : Consts) (i : Nat) (e : Nat) : Nat × Nat :=
  let i1 := (i + 1) % 2 ^ 32
  (((i1 <<< (1 + c.LOG2NENV)) % 2 ^ 32 ||| e) % 2 ^ 32, i1)

/-- The function `envid2env`: `.ok p` is `return 0` with `*penv = p`. The comparison
`e->env_parent_id == checkperm` is made in `u_int`, the `int` converted modulo `2 ^ 32`. -/
def envid2env (c : Consts) (s : Kernel) (envid : Nat) (checkperm : Int) :
    Except Errno (Option Nat) :=
  if envid = 0 then
    .ok s.curenv
  else
    let e := ENVX c envid
    if (s.envs e).env_status = .ENV_FREE ∨ (s.envs e).env_id ≠ envid then
      .error .E_BAD_ENV
    else if checkperm ≠ 0 ∧
        ¬ (some e = s.curenv ∨ (s.envs e).env_parent_id = (checkperm % 2 ^ 32).toNat) then
      .error .E_BAD_ENV
    else
      .ok (some e)

/-! ## The runnable queue -/

/-- The store `*p = v` of a slot pointer through a `struct Env **`. A store through `NULL`
writes no object of the program: it is recorded in `fault`. -/
def store_ref (s : Kernel) (p : LinkRef) (v : Option Nat) : Kernel :=
  match p with
  | .null => { s with fault := true }
  | .head_first => { s with tqh_first := v }
  | .next_of j =>
    let l : SchedLink := { s.env_sched_link j with tqe_next := v }
    { s with env_sched_link := store s.env_sched_link j l }

/-- The slots a traversal of the queue visits, `for (e = first; e; e = e->tqe_next)` as
`TAILQ_FOREACH` runs it, stopped after `n` slots. -/
def tailq_walk (link : Nat → SchedLink) : Nat → Option Nat → List Nat
  | 0, _ => []
  | _ + 1, none => []
  | n + 1, some x => x :: tailq_walk link n (link x).tqe_next

/-- Modelled from the spec: the runnable queue macro `TAILQ_INIT` of `queue.h` (not among the
sources), with the body of the BSD `sys/queue.h`: `TAILQ_INIT(&env_sched_list)` is
`tqh_first = NULL; tqh_last = &tqh_first;`. The link fields of the slots are not written. -/
def TAILQ_INIT (s : Kernel) : Kernel :=
  { s with tqh_first := none, tqh_last := .head_first, env_sched_list := [] }

/-- Modelled from the spec: the runnable queue macro `TAILQ_INSERT_HEAD` of `queue.h` (not
among the sources), with the body of the BSD `sys/queue.h`, statement by statement.
`TAILQ_INSERT_HEAD(&env_sched_list, elm, env_sched_link)` is
`if ((elm->tqe_next = tqh_first) != NULL) tqh_first->tqe_prev = &elm->tqe_next;`
`else tqh_last = &elm->tqe_next;`
`tqh_first = elm; elm->tqe_prev = &tqh_first;`.
The list of the queue is then `elm` followed by the list before: this is what a traversal
visits whenever `elm` was not on the queue (`TAILQ_INSERT_HEAD_walk`); for a slot that is
already on the queue the links form a cycle, which no list describes. -/
def TAILQ_INSERT_HEAD (s : Kernel) (elm : Nat) : Kernel :=
  let l1 : SchedLink := { s.env_sched_link elm with tqe_next := s.tqh_first }
  let s1 := { s with env_sched_link := store s.env_sched_link elm l1 }
  let s2 :=
    match s1.tqh_first with
    | some f =>
      let lf : SchedLink := { s1.env_sched_link f with tqe_prev := .next_of elm }
      { s1 with env_sched_link := store s1.env_sched_link f lf }
    | none => { s1 with tqh_last := .next_of elm }
  let s3 := { s2 with tqh_first := some elm }
  let l4 : SchedLink := { s3.env_sched_link elm with tqe_prev := .head_first }
  { s3 with
    env_sched_link := store s3.env_sched_link elm l4
    env_sched_list := elm :: s3.env_sched_list }

/-- Modelled from the spec: the macro `TAILQ_INSERT_TAIL` of `queue.h` (not among the
sources), which the commented-out `env_check` calls, with the body of the BSD `sys/queue.h`,
statement by statement. `TAILQ_INSERT_TAIL(&env_sched_list, elm, env_sched_link)` is
`elm->tqe_next = NULL; elm->tqe_prev = tqh_last; *tqh_last = elm;`
`tqh_last = &elm->tqe_next;`.
With `tqh_last == NULL` (a head that `TAILQ_INIT` has not set up) the store `*tqh_last` is a
store through `NULL`, and the last statement is not reached. -/
def TAILQ_INSERT_TAIL (s : Kernel) (elm : Nat) : Kernel :=
  let l1 : SchedLink := { tqe_next := none, tqe_prev := s.tqh_last }
  let s1 := { s with env_sched_link := store s.env_sched_link elm l1 }
  match s1.tqh_last with
  | .null => { s1 with fault := true }
  | p =>
    let s2 := store_ref s1 p (some elm)
    { s2 with tqh_last := .next_of elm, env_sched_list := s2.env_sched_list ++ [elm] }

/-- Modelled from the spec: the runnable queue macro `TAILQ_REMOVE` of `queue.h` (not among
the sources), with the body of the BSD `sys/queue.h`, statement by statement.
`TAILQ_REMOVE(&env_sched_list, elm, env_sched_link)` is
`if (elm->tqe_next != NULL) elm->tqe_next->tqe_prev = elm->tqe_prev;`
`else tqh_last = elm->tqe_prev;`
`*elm->tqe_prev = elm->tqe_next;`.
The macro does not test whether `elm` is on the queue: it follows the link fields of `elm`
as they are. For a slot that has never been on the queue both are `NULL` and the last store
is a store through `NULL`; for a slot that has left the queue they are the values it had on
it. The list of the queue afterwards is what a traversal from the new `tqh_first` visits;
`NENV` bounds it, as a queue holds each slot of `envs` at most once. -/
def TAILQ_REMOVE (c : Consts) (s : Kernel) (elm : Nat) : Kernel :=
  let s1 :=
    match (s.env_sched_link elm).tqe_next with
    | some n =>
      let ln : SchedLink :=
        { s.env_sched_link n with tqe_prev := (s.env_sched_link elm).tqe_prev }
      { s with env_sched_link := store s.env_sched_link n ln }
    | none => { s with tqh_last := (s.env_sched_link elm).tqe_prev }
  let s2 := store_ref s1 (s1.env_sched_link elm).tqe_prev (s1.env_sched_link elm).tqe_next
  { s2 with env_sched_list := tailq_walk s2.env_sched_link (NENV c) s2.tqh_first }

/-! ## Process table -/

/-- The loop of `env_init`, `for (i = NENV - 1; i >= 0; i--)`, with `k` iterations left
(the next one has `i = k - 1`). -/
def env_init_loop : Nat → Kernel → Kernel
  | 0, s => s
  | k + 1, s =>
    env_init_loop k
      { s with
        envs := store s.envs k { s.envs k with env_status := .ENV_FREE }
        env_free_list := k :: s.env_free_list }

/-- The function `env_init`, on the globals of `Kernel`: both lists are emptied (`LIST_INIT`,
`TAILQ_INIT`), every slot is marked free and pushed on the free list, ASID 0 is taken. The
template page directory, the `satp` write and `virtio_init` act on memory and devices
outside `Kernel`. -/
def env_init (c : Consts) (s : Kernel) : Kernel :=
  let s1 := TAILQ_INIT { s with env_free_list := [] }
  let s2 := env_init_loop (NENV c) s1
  { s2 with asid_bitmap := store s2.asid_bitmap 0 (s2.asid_bitmap 0 ||| 1) }

/-- The function `env_setup_vm` on slot `e`: `alloc_pgdir` and `map_page` receive
`&e->env_pgdir`, and `pgdir` is the value they leave there. It always returns 0. -/
def env_setup_vm (s : Kernel) (e : Nat) (pgdir : Nat) : Kernel :=
  { s with envs := store s.envs e { s.envs e with env_pgdir := pgdir } }

/-- The function `env_alloc`. `pgdir` is the page directory `env_setup_vm` installs.
`sizeof(int) = 4` and `sizeof(char **) = 8` (the default 64-bit build), in `u_long`
arithmetic. -/
def env_alloc (c : Consts) (s : Kernel) (parent_id : Nat) (pgdir : Nat) :
    Except Errno Nat × Kernel :=
  match s.env_free_list with
  | [] => (.error .E_NO_FREE_ENV, s)
  | e :: _ =>
    let e1 : Env := { s.envs e with env_pgdir := 0, env_user_tlb_mod_entry := 0, env_runs := 0 }
    let s1 := { s with envs := store s.envs e e1 }
    let id := mkenvid c s1.mkenvid_i e
    let s2 := { s1 with
      envs := store s1.envs e { s1.envs e with env_id := id.1 }
      mkenvid_i := id.2 }
    match asid_alloc s2.asid_bitmap with
    | (.error r, bm) => (.error r, { s2 with asid_bitmap := bm })
    | (.ok asid, bm) =>
      let s3 := { s2 with
        asid_bitmap := bm
        envs := store s2.envs e { s2.envs e with env_asid := asid } }
      let s4 := { s3 with envs := store s3.envs e { s3.envs e with env_parent_id := parent_id } }
      let s5 := env_setup_vm s4 e pgdir
      let tf : Trapframe := { (s5.envs e).env_tf with
        sie := c.SIE_UTIE
        sstatus := c.SSTATUS_UIE
        sscratch := (c.USTACKTOP + 2 ^ 64 - 4 - 8) % 2 ^ 64 }
      let s6 := { s5 with envs := store s5.envs e { s5.envs e with env_tf := tf } }
      (.ok e, { s6 with env_free_list := s6.env_free_list.erase e })

/-- The function `env_create`. `env_alloc`'s return value is ignored by the C code, so `e` is
an uninitialised pointer when it fails: that case is `none`. `entry` is the `e_entry` of the
(valid) ELF image that `load_icode` stores in `sepc`, and `pgdir2` is what the loader's
`pmap` calls (they receive `&env->env_pgdir`) leave in `e->env_pgdir`; the bytes the loader
copies and the page-directory entries stitched in afterwards live in memory outside
`Kernel`. -/
def env_create (c : Consts) (s : Kernel) (priority : Int) (entry : Nat) (pgdir pgdir2 : Nat) :
    Option (Nat × Kernel) :=
  match env_alloc c s 0 pgdir with
  | (.error _, _) => none
  | (.ok e, s1) =>
    let e2 : Env := { s1.envs e with env_pri := priority, env_status := .ENV_RUNNABLE }
    let s2 := { s1 with envs := store s1.envs e e2 }
    let tf : Trapframe := { (s2.envs e).env_tf with sepc := entry }
    let e3 : Env := { s2.envs e with env_pgdir := pgdir2, env_tf := tf }
    let s3 := { s2 with envs := store s2.envs e e3 }
    some (e, TAILQ_INSERT_HEAD s3 e)

/-- The function `env_free` on slot `e`. `destroy_pgdir` receives `&e->env_pgdir`, and `pgdir`
is the value it leaves there; the `satp` write, the `sfence.vma` and the frames released act
outside `Kernel`. The last statement that writes a global is the `TAILQ_REMOVE`, run
whether or not `e` is on the runnable queue; the final `e = TAILQ_FIRST(...)` assigns a dead
local. `NENV` (of `c`) is read by the traversal in `TAILQ_REMOVE` only. -/
def env_free (c : Consts) (s : Kernel) (e : Nat) (pgdir : Nat) : Kernel :=
  let s1 := { s with envs := store s.envs e { s.envs e with env_pgdir := pgdir } }
  let s2 := { s1 with asid_bitmap := asid_free s1.asid_bitmap (s1.envs e).env_asid }
  let s3 := { s2 with envs := store s2.envs e { s2.envs e with env_status := .ENV_FREE } }
  let s4 := { s3 with env_free_list := e :: s3.env_free_list }
  TAILQ_REMOVE c s4 e

/-! ## The boot state and build constants for examples -/

/-- The state of the globals when the kernel is loaded: zero-initialised statics (the status
of a zeroed slot is overwritten by `env_init` before any use). -/
def boot : Kernel where
  envs := fun _ =>
    { env_tf := { regs := [], sepc := 0, sstatus := 0, sie := 0, sscratch := 0, stvec := 0 }
      env_id := 0, env_asid := 0, env_parent_id := 0, env_status := .ENV_FREE
      env_pgdir := 0, env_pri := 0, env_user_tlb_mod_entry := 0, env_runs := 0 }
  curenv := none
  env_free_list := []
  env_sched_list := []
  asid_bitmap := fun _ => 0
  mkenvid_i := 0
  tqh_first := none
  tqh_last := .null
  env_sched_link := fun _ => { tqe_next := none, tqe_prev := .null }
  fault := false

/-- The constants of the default build as the commented-out `env_check` implies them
(`LOG2NENV = 10`), with the standard RISC-V bit positions. -/
def consts10 : Consts where
  LOG2NENV := 10
  USTACKTOP := 0x80000000
  SIE_UTIE := 0x10
  SSTATUS_UIE := 0x1

/-- The same constants with `LOG2NENV = 11`, the value the spec quotes. -/
def consts11 : Consts := { consts10 with LOG2NENV := 11 }

/-! ## Call sequences and reachable states -/

/-- The static counter of `mkenvid` after it has been called, from counter `i`, on the slots
of the list in turn. -/
def mkenvid_counter (c : Consts) (i : Nat) : List Nat → Nat
  | [] => i
  | e :: es => mkenvid_counter c (mkenvid c i e).2 es

/-- The kernel states reachable from `env_init` by `env_alloc`, `env_create` and `env_free` of
live slots, each with its list of live slots: the slots returned by a successful `env_alloc`
(called directly or by `env_create`) and not yet passed to `env_free`. -/
inductive Reachable (c : Consts) : Kernel → List Nat → Prop
  | init (s0 : Kernel) : Reachable c (env_init c s0) []
  | alloc_ok {s : Kernel} {live : List Nat} (parent_id pgdir e : Nat) (s1 : Kernel) :
      Reachable c s live → env_alloc c s parent_id pgdir = (.ok e, s1) →
      Reachable c s1 (e :: live)
  | alloc_err {s : Kernel} {live : List Nat} (parent_id pgdir : Nat) (r : Errno) (s1 : Kernel) :
      Reachable c s live → env_alloc c s parent_id pgdir = (.error r, s1) →
      Reachable c s1 live
  | create {s : Kernel} {live : List Nat} (priority : Int) (entry pgdir pgdir2 e : Nat)
      (s1 : Kernel) :
      Reachable c s live → env_create c s priority entry pgdir pgdir2 = some (e, s1) →
      Reachable c s1 (e :: live)
  | free {s : Kernel} {live : List Nat} (e pgdir : Nat) :
      Reachable c s live → e ∈ live →
      Reachable c (env_free c s e pgdir) (live.filter (fun x => x ≠ e))

/-- The invariant of the process table and the ASID bitmap that `env_init` establishes and
that `env_alloc`, `env_create` and `env_free` of a live slot keep, for a state `s` with live
slots `live`. -/
structure TableInv (c : Consts) (s : Kernel) (live : List Nat) : Prop where
  free_nodup : s.env_free_list.Nodup
  free_lt : ∀ e, e ∈ s.env_free_list → e < NENV c
  free_iff : ∀ e, e < NENV c → (e ∈ s.env_free_list ↔ e ∉ live)
  live_lt : ∀ e, e ∈ live → e < NENV c
  free_status : ∀ e, e ∈ s.env_free_list → (s.envs e).env_status = .ENV_FREE
  asid_set : ∀ e, e ∈ live → asid_bit s.asid_bitmap (s.envs e).env_asid = true
  asid_inj : ∀ e1 e2, e1 ∈ live → e2 ∈ live → e1 ≠ e2 →
    (s.envs e1).env_asid ≠ (s.envs e2).env_asid

/-! ## Sample states -/

/-- The state after boot, `env_init` and one `env_create` from the kernel: slot 0 is
runnable with id 2048, ASID 1 and no parent. -/
def sample_created : Kernel :=
  match env_create consts10 (env_init consts10 boot) 1 0x400000 0x81000000 0x81000000 with
  | some (_, s) => s
  | none => boot

/-- The state `sample_created` after slot 0 has been dispatched (`curenv` is slot 0) and has
created a child: `env_alloc` with slot 0's id as `parent_id` returned slot 1 (id 4097), and
its creator marked it `ENV_NOT_RUNNABLE`. -/
def sample_child : Kernel :=
  let s1 := (env_alloc consts10 sample_created 2048 0x81001000).2
  { s1 with
    envs := store s1.envs 1 { s1.envs 1 with env_status := .ENV_NOT_RUNNABLE }
    curenv := some 0 }

/-- The state `sample_created` after a second `env_create` from the kernel: slots 0 and 1
are runnable, with ids 2048 and 4097 and ASIDs 1 and 2. -/
def sample_two : Kernel :=
  match env_create consts10 sample_created 2 0x400000 0x81002000 0x81002000 with
  | some (_, s) => s
  | none => boot

/-- The state after boot, `env_init` and one successful `env_alloc(0)`, which returned
slot 0. -/
def sample_allocated : Kernel := (env_alloc consts10 (env_init consts10 boot) 0 0x81000000).2

/-- The state `sample_created` after `env_free` of its slot 0: the slot is back at the head
of the free list, with the trap frame its process had. -/
def sample_freed : Kernel := env_free consts10 sample_created 0 0

/-- The state `sample_two` after `env_free` of slot 1, which was at the head of the runnable
queue: the queue is slot 0 alone, and slot 1 keeps the link fields it had as the head of
the queue (`tqe_next` slot 0, `tqe_prev` the address of `tqh_first`). -/
def sample_stale_freed : Kernel := env_free consts10 sample_two 1 0

/-- The state `sample_stale_freed` after an `env_alloc` from slot 0 (id 2048): it returns
slot 1 again, which `env_alloc` does not put on the runnable queue. -/
def sample_stale_alloc : Kernel := (env_alloc consts10 sample_stale_freed 2048 0x81003000).2

/-- The state `sample_stale_alloc` after an `env_create` from the kernel: slot 2 is runnable
and at the head of the runnable queue, in front of slot 0. -/
def sample_stale_created : Kernel :=
  match env_create consts10 sample_stale_alloc 3 0x400000 0x81004000 0x81004000 with
  | some (_, s) => s
  | none => boot

/-- The state `sample_stale_created` after `env_free` of the live slot 1. -/
def sample_dropped : Kernel := env_free consts10 sample_stale_created 1 0

/-- The state `sample_two` after `env_free` of slot 1 and of slot 0: slots 0 and 1 are the
first two slots of the free list again, and both have been on the runnable queue. -/
def sample_recycled : Kernel := env_free consts10 sample_stale_freed 0 0

/-- The state after boot and `env_init` with every ASID taken: both words of the bitmap are
full. -/
def sample_asid_full : Kernel :=
  { env_init consts10 boot with asid_bitmap := fun _ => 2 ^ 32 - 1 }

/-! ## Effects on the machine outside the process table -/

/-- Modelled from the spec: the CSR constants of `asm/csrdef.h` and the address of the trap
vector `exc_gen_entry`, none of them among the sources; they are parameters of the
embedding. -/
structure CsrConsts where
  SATP_MODE_BARE : Nat
  SATP_MODE : Nat
  SATP_MODE_SV39 : Nat
  SATP_ASID : Nat
  SATP_PPN : Nat
  SIE_STIE : Nat
  SSTATUS_SPIE : Nat
  exc_gen_entry : Nat
  deriving DecidableEq, Repr

/-- What `env_free` and `env_run` do to the machine outside `Kernel`, in program order: CSR
writes, TLB fences, calls of routines that are not among the sources, stores into page
directories and the jump that leaves the kernel. `destroy_pgdir pgdir asid` is the call
that releases the page-table frames of `pgdir`. -/
inductive Effect where
  | csrw_satp (v : Nat)
  | sfence_vma_asid (asid : Nat)
  | sfence_vma_all
  | destroy_pgdir (pgdir asid : Nat)
  | asid_free (asid : Nat)
  | csrw_sepc (v : Nat)
  | csrw_sstatus (v : Nat)
  | pgdir_entry_copy (pgdir index base : Nat) (or_pte_v : Bool)
  | sbi_set_timer (t : Nat)
  | ret_from_exception (tf_of_slot : Nat)
  deriving DecidableEq, Repr

/-- The function `env_free` on slot `e`, statement by statement, with the effects it has
outside `Kernel` listed in the order the statements run. `pgdir` is what `destroy_pgdir`
leaves in `e->env_pgdir`, as in `env_free`. -/
def env_free_run (c : Consts) (cc : CsrConsts) (s : Kernel) (e : Nat) (pgdir : Nat) :
    Kernel × List Effect :=
  let t1 : List Effect := [.csrw_satp (cc.SATP_MODE_BARE &&& cc.SATP_MODE)]
  let t2 := t1 ++ [.sfence_vma_asid (s.envs e).env_asid]
  let t3 := t2 ++ [.destroy_pgdir (s.envs e).env_pgdir (s.envs e).env_asid]
  let s1 := { s with envs := store s.envs e { s.envs e with env_pgdir := pgdir } }
  let t4 := t3 ++ [.asid_free (s1.envs e).env_asid]
  let s2 := { s1 with asid_bitmap := asid_free s1.asid_bitmap (s1.envs e).env_asid }
  let s3 := { s2 with envs := store s2.envs e { s2.envs e with env_status := .ENV_FREE } }
  let s4 := { s3 with env_free_list := e :: s3.env_free_list }
  (TAILQ_REMOVE c s4 e, t4)

/-- The timer statics of `env.c`: `static uint64_t delta_time = 30000L`. -/
def delta_time : Nat := 30000

/-- The timer statics of `env.c`: the initial value of `static uint64_t time = 20000000L`. -/
def time_at_boot : Nat := 20000000

/-- The state `env_run` works on: the globals of `Kernel`, `cur_pgdir` (a global of
`pmap.c`), `base_pgdir`, the static `time`, the live CSR `sstatus`, and the trap frame the
trap entry left at the top of the kernel stack, `*((struct Trapframe *)KSTACKTOP - 1)`. -/
structure Machine where
  kern : Kernel
  cur_pgdir : Nat
  base_pgdir : Nat
  time : Nat
  sstatus : Nat
  kstack_tf : Trapframe

/-- How a call of `env_run` ends: `resumed` when it jumps to `ret_from_exception` (it never
returns to its caller), `panic` when one of its `assert`s fails, with the machine state and
the effects up to that point. -/
inductive Outcome where
  | resumed (m : Machine) (effects : List Effect)
  | panic (m : Machine) (effects : List Effect)

/-- The effects of a call of `env_run`. -/
def outcome_effects : Outcome → List Effect
  | .resumed _ t => t
  | .panic _ t => t

/-- The machine state a call of `env_run` ends in. -/
def outcome_machine : Outcome → Machine
  | .resumed m _ => m
  | .panic m _ => m

/-- The deadlines passed to `sbi_set_timer` in a list of effects. -/
def timer_deadlines : List Effect → List Nat
  | [] => []
  | .sbi_set_timer t :: rest => t :: timer_deadlines rest
  | _ :: rest => timer_deadlines rest

/-- The function `env_run` on slot `e`, in the default build (64-bit, Sv39, neither
`MOS_SCHED_MAX_TICKS` nor `MOS_SCHED_END_PC` defined, so `pre_env_run` does nothing). `r` is
the value `sbi_set_timer` returns. `u_long` is 64 bits wide.

Modelled from the spec: `env_runs` is the "monotonic counter incremented on each dispatch"
(the declaration of the field is not among the sources). The two stores into the page
directory of `e` go to memory outside the state and are listed as effects. -/
def env_run (cc : CsrConsts) (m : Machine) (e : Nat) (r : Int) : Outcome :=
  if (m.kern.envs e).env_status ≠ .ENV_RUNNABLE then
    .panic m []
  else
    let k1 : Kernel :=
      match m.kern.curenv with
      | some cur =>
        { m.kern with envs := store m.kern.envs cur { m.kern.envs cur with env_tf := m.kstack_tf } }
      | none => m.kern
    let k2 : Kernel := { k1 with curenv := some e }
    let k3 : Kernel :=
      { k2 with envs := store k2.envs e { k2.envs e with env_runs := (k2.envs e).env_runs + 1 } }
    let m3 : Machine := { m with kern := k3, cur_pgdir := (k3.envs e).env_pgdir }
    let t1 : List Effect := [.csrw_sepc (k3.envs e).env_tf.sepc]
    let status := m3.sstatus &&& 0xfffffffffffffeff
    let m4 : Machine := { m3 with sstatus := status }
    let t2 := t1 ++ [.csrw_sstatus status]
    let t3 := t2 ++ [.pgdir_entry_copy (k3.envs e).env_pgdir 2 m4.base_pgdir false]
    let t4 := t3 ++ [.csrw_satp ((cc.SATP_MODE_SV39 &&& cc.SATP_MODE)
      ||| ((((k3.envs e).env_asid <<< 44) % 2 ^ 64) &&& cc.SATP_ASID)
      ||| (((k3.envs e).env_pgdir >>> 12) &&& cc.SATP_PPN))]
    let t5 := t4 ++ [.sfence_vma_all]
    let t6 := t5 ++ [.pgdir_entry_copy (k3.envs e).env_pgdir 4 m4.base_pgdir true]
    let tf5 : Trapframe := { (k3.envs e).env_tf with stvec := cc.exc_gen_entry }
    let k5 : Kernel := { k3 with envs := store k3.envs e { k3.envs e with env_tf := tf5 } }
    let m5 : Machine := { m4 with kern := k5 }
    let t7 := t6 ++ [.sbi_set_timer m5.time]
    if r ≠ 0 then
      .panic m5 t7
    else
      let m6 : Machine := { m5 with time := (m5.time + delta_time) % 2 ^ 64 }
      let tf7 : Trapframe := { (k5.envs e).env_tf with
        sie := (k5.envs e).env_tf.sie ||| cc.SIE_STIE
        sstatus := (k5.envs e).env_tf.sstatus ||| cc.SSTATUS_SPIE }
      let k7 : Kernel := { k5 with envs := store k5.envs e { k5.envs e with env_tf := tf7 } }
      .resumed { m6 with kern := k7 } (t7 ++ [.ret_from_exception e])

/-- The machine states in which `env_run` has been called and has left for user mode `n`
times since boot. `time` is a static of `env.c` that only `env_run` reads or writes, so
whatever else the kernel and the user processes do between two calls leaves it alone. -/
inductive AfterRuns (cc : CsrConsts) : Nat → Machine → Prop
  | boot (m : Machine) : m.time = time_at_boot → AfterRuns cc 0 m
  | other {n : Nat} {m : Machine} (m1 : Machine) :
      AfterRuns cc n m → m1.time = m.time → AfterRuns cc n m1
  | run {n : Nat} {m : Machine} (e : Nat) (r : Int) (m1 : Machine) (t : List Effect) :
      AfterRuns cc n m → env_run cc m e r = .resumed m1 t → AfterRuns cc (n + 1) m1

/-- The CSR constants of the RISC-V privileged architecture for Sv39, with a trap vector
inside the kernel image. -/
def csr_consts : CsrConsts where
  SATP_MODE_BARE := 0
  SATP_MODE := 0xF000000000000000
  SATP_MODE_SV39 := 0x8000000000000000
  SATP_ASID := 0x0FFFF00000000000
  SATP_PPN := 0x00000FFFFFFFFFFF
  SIE_STIE := 0x20
  SSTATUS_SPIE := 0x20
  exc_gen_entry := 0x80200100

/-- The machine right after boot with the two processes of `sample_two` created, slot 0
running (`curenv` is slot 0) and a timer trap just taken from it at pc 0x400010. -/
def sample_machine : Machine where
  kern := { sample_two with curenv := some 0 }
  cur_pgdir := 0x81000000
  base_pgdir := 0x80400000
  time := time_at_boot
  sstatus := 0x120
  kstack_tf :=
    { regs := [0, 7], sepc := 0x400010, sstatus := 0x20, sie := 0x30, sscratch := 0x7fffff00,
      stvec := 0x80200100 }

/-- The machine `sample_machine` after `env_run` has dispatched slot 1 with the timer armed
(`sbi_set_timer` returned 0). -/
def sample_machine_next : Machine := outcome_machine (env_run csr_consts sample_machine 1 0)

/-! ## The page mapper of the image loader -/

/-- Modelled from the spec: the routines of `pmap.c` that `load_icode_mapper` calls,
"`alloc_page_user(pgdir, asid, va, perm)`, `get_pa(pgdir, va)`, `is_mapped_page(pgdir,
va)`", none of them among the sources; they are parameters of the embedding. `σ` is the
state of the page tables and of the page allocator. Each routine receives
`&env->env_pgdir` and reads the page directory through it; `alloc_page_user` returns its
`int` result, the new page-table state, the memory as it leaves it and the value it leaves
in `env->env_pgdir`. -/
structure Pmap (σ : Type) where
  is_mapped_page : σ → Nat → Nat → Int
  alloc_page_user : σ → (Nat → Nat) → Nat → Nat → Nat → Nat → Int × σ × (Nat → Nat) × Nat
  get_pa : σ → Nat → Nat → Nat

/-- The call `memcpy(dst, src, len)` on byte-addressed memory, for regions that do not
overlap: the bytes are read from the memory before the call. -/
def memcpy (mem : Nat → Nat) (dst src len : Nat) : Nat → Nat :=
  fun a => if dst ≤ a ∧ a < dst + len then mem (src + (a - dst)) else mem a

/-- The state `load_icode_mapper` works on: the globals of `Kernel`, the page tables and
the bytes of memory (the kernel reaches physical memory through an identity map, so a
physical address and the pointer to it are the same number). -/
structure Loader (σ : Type) where
  kern : Kernel
  pmap_state : σ
  mem : Nat → Nat

set_option linter.unusedVariables false in
/-- The function `load_icode_mapper`, in the build without `DEBUG_ELF`: the value returned
and the state after the call. `data` is the slot `env`; `src` is `none` for `NULL`.
`try(alloc_page_user(...))` returns whatever non-zero value `alloc_page_user` returns.
`offset` is not read by the code. -/
def load_icode_mapper {σ : Type} (P : Pmap σ) (st : Loader σ) (env va offset perm : Nat)
    (src : Option Nat) (len : Nat) : Int × Loader σ :=
  let r1 : Int × Loader σ :=
    if P.is_mapped_page st.pmap_state (st.kern.envs env).env_pgdir va = 0 then
      let res := P.alloc_page_user st.pmap_state st.mem (st.kern.envs env).env_pgdir
        (st.kern.envs env).env_asid va perm
      let env1 : Env := { st.kern.envs env with env_pgdir := res.2.2.2 }
      (res.1,
        { kern := { st.kern with envs := store st.kern.envs env env1 }
          pmap_state := res.2.1
          mem := res.2.2.1 })
    else
      (0, st)
  if r1.1 ≠ 0 then
    r1
  else
    let st1 := r1.2
    let pa := P.get_pa st1.pmap_state (st1.kern.envs env).env_pgdir va
    match src with
    | some p => (0, { st1 with mem := memcpy st1.mem pa p len })
    | none => (0, st1)

/-- A small page-table state to run `load_icode_mapper` on: the mapped virtual pages with
their frames, and the next free frame. -/
structure ToyPages where
  table : List (Nat × Nat)
  next_frame : Nat
  deriving DecidableEq, Repr

/-- The frame of a virtual page number in a `ToyPages` state. -/
def toy_frame (pt : ToyPages) (vpn : Nat) : Option Nat :=
  (pt.table.find? (fun p => decide (p.1 = vpn))).map (fun p => p.2)

/-- An instance of the `pmap` routines on `ToyPages`, with 4096-byte pages:
`get_pa` keeps the offset of `va` inside its page, as the comment at the `memcpy` of
`load_icode_mapper` expects; `alloc_page_user` maps the page of `va` to the next free frame
and always succeeds. -/
def toy_pmap : Pmap ToyPages where
  is_mapped_page pt _ va := if (toy_frame pt (va / 4096)).isSome then 1 else 0
  alloc_page_user pt mem pgdir _ va _ :=
    (0, { table := (va / 4096, pt.next_frame) :: pt.table, next_frame := pt.next_frame + 4096 },
      mem, pgdir)
  get_pa pt _ va :=
    match toy_frame pt (va / 4096) with
    | some f => f + va % 4096
    | none => 0

/-- A loader state on `sample_created`: no user page mapped yet, frames free from
0x81200000, and four bytes 0xAA of an ELF image at 0x80300000 in otherwise zero memory. -/
def sample_loader : Loader ToyPages where
  kern := sample_created
  pmap_state := { table := [], next_frame := 0x81200000 }
  mem := fun a => if 0x80300000 ≤ a ∧ a < 0x80300004 then 0xAA else 0

/-- The call of `load_icode_mapper` for the first, unaligned part of a segment that starts
at `va = 0x400123`: `offset = 0x123`, four bytes from 0x80300000, on `sample_loader`. -/
def sample_mapper_call : Int × Loader ToyPages :=
  load_icode_mapper toy_pmap sample_loader 0 0x400123 0x123 7 (some 0x80300000) 4

/-! ## Arrays and the ASID bitmap -/

theorem store_same {α : Type} (a : Nat → α) (k : Nat) (v : α) : store a k v k = v := by
  simp [store]

theorem store_other {α : Type} (a : Nat → α) (k j : Nat) (v : α) (h : j ≠ k) :
    store a k v j = a j := by
  simp [store, h]

theorem store_store {α : Type} (a : Nat → α) (k : Nat) (v w : α) :
    store (store a k v) k w = store a k w := by
  funext j
  by_cases h : j = k <;> simp [store, h]

/-- The test of `asid_alloc` reads bit `i` of the bitmap. -/
theorem asid_test_iff (bm : Nat → Nat) (i : Nat) :
    bm (i >>> 5) &&& (1 <<< (i &&& 31)) = 0 ↔ asid_bit bm i = false := by
  have h5 : i >>> 5 = i / 32 := by rw [Nat.shiftRight_eq_div_pow]
  have h31 : i &&& 31 = i % 32 := Nat.and_pow_two_sub_one_eq_mod i 5
  rw [h5, h31, Nat.one_shiftLeft, asid_bit]
  constructor
  · intro h
    have := congrArg (fun x => x.testBit (i % 32)) h
    simpa [Nat.testBit_two_pow_self] using this
  · intro h
    apply Nat.eq_of_testBit_eq
    intro j
    by_cases hj : i % 32 = j
    · subst hj; simp [h]
    · simp [Nat.testBit_two_pow_of_ne hj]

theorem asid_index_eq (j m : Nat) : j = m ↔ j / 32 = m / 32 ∧ j % 32 = m % 32 := by
  omega

/-- Bits of the bitmap after bit `m` has been set as `asid_alloc` sets it. -/
theorem asid_bit_set (bm : Nat → Nat) (m j : Nat) :
    asid_bit (store bm (m >>> 5) (bm (m >>> 5) ||| (1 <<< (m &&& 31)))) j
      = (asid_bit bm j || decide (j = m)) := by
  have h5 : m >>> 5 = m / 32 := by rw [Nat.shiftRight_eq_div_pow]
  have h31 : m &&& 31 = m % 32 := Nat.and_pow_two_sub_one_eq_mod m 5
  rw [h5, h31, Nat.one_shiftLeft]
  unfold asid_bit
  by_cases hw : j / 32 = m / 32
  · rw [hw, store_same, Nat.testBit_or, Nat.testBit_two_pow]
    congr 1
    have := asid_index_eq j m
    by_cases hb : m % 32 = j % 32 <;> simp [hb] <;> omega
  · rw [store_other _ _ _ _ hw]
    have : j ≠ m := fun h => hw (by rw [h])
    simp [this]

/-- Bits of the bitmap after `asid_free m`. -/
theorem asid_bit_free (bm : Nat → Nat) (m j : Nat) :
    asid_bit (asid_free bm m) j = (asid_bit bm j && !decide (j = m)) := by
  have h5 : m >>> 5 = m / 32 := by rw [Nat.shiftRight_eq_div_pow]
  have h31 : m &&& 31 = m % 32 := Nat.and_pow_two_sub_one_eq_mod m 5
  unfold asid_free
  simp only []
  rw [h5, h31, Nat.one_shiftLeft]
  unfold asid_bit
  by_cases hw : j / 32 = m / 32
  · have hlt : 2 ^ (m % 32) < 2 ^ 32 :=
      Nat.pow_lt_pow_right (by norm_num) (Nat.mod_lt _ (by norm_num))
    have e : 2 ^ 32 - 1 - 2 ^ (m % 32) = 2 ^ 32 - (2 ^ (m % 32) + 1) := by omega
    rw [hw, store_same, Nat.testBit_and, e, Nat.testBit_two_pow_sub_succ hlt,
      Nat.testBit_two_pow]
    have hj : j % 32 < 32 := Nat.mod_lt _ (by norm_num)
    have := asid_index_eq j m
    by_cases hb : m % 32 = j % 32 <;> simp [hb, hj] <;> omega
  · rw [store_other _ _ _ _ hw]
    have : j ≠ m := fun h => hw (by rw [h])
    simp [this]

/-- Freeing the ASID that `asid_alloc` has just set gives back every bit of the bitmap. -/
theorem asid_bit_free_set (bm : Nat → Nat) (a j : Nat) (hclear : asid_bit bm a = false) :
    asid_bit (asid_free (store bm (a >>> 5) (bm (a >>> 5) ||| (1 <<< (a &&& 31)))) a) j
      = asid_bit bm j := by
  rw [asid_bit_free, asid_bit_set]
  by_cases hj : j = a
  · rw [hj, hclear]; simp
  · simp [hj]

/-- Freeing the ASID that `asid_alloc` has just set gives back the bitmap, word for word,
when its words are 32-bit values. -/
theorem asid_free_set (bm : Nat → Nat) (a : Nat) (hclear : asid_bit bm a = false)
    (hw : ∀ k, bm k < 2 ^ 32) :
    asid_free (store bm (a >>> 5) (bm (a >>> 5) ||| (1 <<< (a &&& 31)))) a = bm := by
  funext k
  apply Nat.eq_of_testBit_eq
  intro i
  by_cases hi : i < 32
  · have h := asid_bit_free_set bm a (32 * k + i) hclear
    have e1 : (32 * k + i) / 32 = k := by omega
    have e2 : (32 * k + i) % 32 = i := by omega
    simpa [asid_bit, e1, e2] using h
  · have hle : 2 ^ 32 ≤ 2 ^ i := Nat.pow_le_pow_right (by norm_num) (by omega)
    rw [Nat.testBit_lt_two_pow (lt_of_lt_of_le (hw k) hle)]
    by_cases hk : k = a >>> 5
    · have hlt : asid_free (store bm (a >>> 5) (bm (a >>> 5) ||| (1 <<< (a &&& 31)))) a k
          < 2 ^ 32 := by
        rw [hk]
        simp only [asid_free, store_same]
        exact lt_of_le_of_lt Nat.and_le_right
          (lt_of_le_of_lt (Nat.sub_le _ _) (by norm_num))
      exact Nat.testBit_lt_two_pow (lt_of_lt_of_le hlt hle)
    · simp only [asid_free, store_other _ _ _ _ hk]
      exact Nat.testBit_lt_two_pow (lt_of_lt_of_le (hw k) hle)

/-- The loop of `asid_alloc` leaves with the error when every remaining bit is set. -/
theorem asid_alloc_loop_full (bm : Nat → Nat) (n i : Nat)
    (h : ∀ j, i ≤ j → j < i + n → asid_bit bm j = true) :
    asid_alloc_loop bm n i = (.error .E_NO_FREE_ENV, bm) := by
  induction n generalizing i with
  | zero => rfl
  | succ n ih =>
    have hi : ¬ (bm (i >>> 5) &&& (1 <<< (i &&& 31)) = 0) := by
      rw [asid_test_iff, h i (le_refl _) (by omega)]; simp
    simp only [asid_alloc_loop, hi, if_false]
    exact ih (i + 1) (fun j h1 h2 => h j (by omega) (by omega))

/-- The loop of `asid_alloc` stops at the first clear bit. -/
theorem asid_alloc_loop_first (bm : Nat → Nat) (n i m : Nat) (hm : i ≤ m) (hmn : m < i + n)
    (hclear : asid_bit bm m = false) (hset : ∀ j, i ≤ j → j < m → asid_bit bm j = true) :
    asid_alloc_loop bm n i
      = (.ok m, store bm (m >>> 5) (bm (m >>> 5) ||| (1 <<< (m &&& 31)))) := by
  induction n generalizing i with
  | zero => omega
  | succ n ih =>
    by_cases him : i = m
    · subst him
      have hi : bm (i >>> 5) &&& (1 <<< (i &&& 31)) = 0 := (asid_test_iff bm i).2 hclear
      simp only [asid_alloc_loop, hi, if_true]
    · have hi : ¬ (bm (i >>> 5) &&& (1 <<< (i &&& 31)) = 0) := by
        rw [asid_test_iff, hset i (le_refl _) (by omega)]; simp
      simp only [asid_alloc_loop, hi, if_false]
      exact ih (i + 1) (by omega) (by omega) (fun j h1 h2 => hset j (by omega) h2)

/-- Whatever the loop of `asid_alloc` returns: an error leaves the bitmap alone, a success
names a bit in range that was clear and is the only change. -/
theorem asid_alloc_loop_result (bm : Nat → Nat) (n i : Nat) :
    (∀ r bm1, asid_alloc_loop bm n i = (.error r, bm1) → r = .E_NO_FREE_ENV ∧ bm1 = bm) ∧
    (∀ a bm1, asid_alloc_loop bm n i = (.ok a, bm1) →
      i ≤ a ∧ a < i + n ∧ asid_bit bm a = false ∧
      bm1 = store bm (a >>> 5) (bm (a >>> 5) ||| (1 <<< (a &&& 31)))) := by
  induction n generalizing i with
  | zero =>
    constructor
    · intro r bm1 h
      simp only [asid_alloc_loop, Prod.mk.injEq, Except.error.injEq] at h
      exact ⟨h.1.symm, h.2.symm⟩
    · intro a bm1 h
      simp [asid_alloc_loop] at h
  | succ n ih =>
    by_cases hi : bm (i >>> 5) &&& (1 <<< (i &&& 31)) = 0
    · constructor
      · intro r bm1 h
        simp [asid_alloc_loop, hi] at h
      · intro a bm1 h
        simp only [asid_alloc_loop, hi, if_true, Prod.mk.injEq, Except.ok.injEq] at h
        obtain ⟨h1, h2⟩ := h
        subst h1
        exact ⟨le_refl _, by omega, (asid_test_iff bm i).1 hi, h2.symm⟩
    · constructor
      · intro r bm1 h
        simp only [asid_alloc_loop, hi, if_false] at h
        exact (ih (i + 1)).1 r bm1 h
      · intro a bm1 h
        simp only [asid_alloc_loop, hi, if_false] at h
        obtain ⟨h1, h2, h3, h4⟩ := (ih (i + 1)).2 a bm1 h
        exact ⟨by omega, by omega, h3, h4⟩

/-! ## Identifiers -/

theorem NENV_eq (c : Consts) : NENV c = 2 ^ c.LOG2NENV := by
  simp [NENV, Nat.one_shiftLeft]

theorem ENVX_eq_mod (c : Consts) (envid : Nat) : ENVX c envid = envid % 2 ^ c.LOG2NENV := by
  simp [ENVX, NENV_eq]

/-- The id `mkenvid` returns, with the counter and the shift not reduced: the two reductions
modulo `2 ^ 32` inside are absorbed by the last one. -/
theorem mkenvid_fst (c : Consts) (i e : Nat) :
    (mkenvid c i e).1 = (((i + 1) <<< (1 + c.LOG2NENV)) ||| e) % 2 ^ 32 := by
  apply Nat.eq_of_testBit_eq
  intro j
  simp only [mkenvid, Nat.testBit_mod_two_pow, Nat.testBit_or, Nat.testBit_shiftLeft]
  by_cases hj : j < 32
  · have : j - (1 + c.LOG2NENV) < 32 := by omega
    simp [hj, this]
  · simp [hj]

theorem mkenvid_snd (c : Consts) (i e : Nat) : (mkenvid c i e).2 = (i + 1) % 2 ^ 32 := rfl

/-- The low `LOG2NENV` bits of an id made by `mkenvid` are the slot index. -/
theorem ENVX_mkenvid (c : Consts) (i e : Nat) (hL : c.LOG2NENV ≤ 32) (he : e < NENV c) :
    ENVX c (mkenvid c i e).1 = e := by
  rw [ENVX_eq_mod, mkenvid_fst]
  rw [NENV_eq] at he
  apply Nat.eq_of_testBit_eq
  intro j
  simp only [Nat.testBit_mod_two_pow, Nat.testBit_or, Nat.testBit_shiftLeft]
  by_cases hj : j < c.LOG2NENV
  · have h1 : ¬ (j ≥ 1 + c.LOG2NENV) := by omega
    have h2 : j < 32 := by omega
    simp [hj, h1, h2]
  · have hle : 2 ^ c.LOG2NENV ≤ 2 ^ j := Nat.pow_le_pow_right (by norm_num) (by omega)
    have : e.testBit j = false := Nat.testBit_lt_two_pow (lt_of_lt_of_le he hle)
    simp [hj, this]

/-- While the counter has not wrapped, the id is the counter value above the slot index. -/
theorem mkenvid_exact (c : Consts) (i e : Nat) (hi : i + 1 < 2 ^ (32 - (c.LOG2NENV + 1)))
    (he : e < NENV c) :
    (mkenvid c i e).1 = (i + 1) * 2 ^ (c.LOG2NENV + 1) + e := by
  have hL : c.LOG2NENV + 1 < 32 := by
    by_contra hcon
    have : 32 - (c.LOG2NENV + 1) = 0 := by omega
    rw [this] at hi
    omega
  rw [NENV_eq] at he
  have he2 : e < 2 ^ (c.LOG2NENV + 1) :=
    lt_of_lt_of_le he (Nat.pow_le_pow_right (by norm_num) (by omega))
  have hpow : 2 ^ (32 - (c.LOG2NENV + 1)) * 2 ^ (c.LOG2NENV + 1) = 2 ^ 32 := by
    rw [← pow_add]; congr 1; omega
  have hlt : (i + 1) * 2 ^ (c.LOG2NENV + 1) + e < 2 ^ 32 := by
    have h1 : (i + 1 + 1) * 2 ^ (c.LOG2NENV + 1)
        ≤ 2 ^ (32 - (c.LOG2NENV + 1)) * 2 ^ (c.LOG2NENV + 1) :=
      Nat.mul_le_mul_right _ hi
    rw [hpow] at h1
    have h2 : (i + 1 + 1) * 2 ^ (c.LOG2NENV + 1)
        = (i + 1) * 2 ^ (c.LOG2NENV + 1) + 2 ^ (c.LOG2NENV + 1) := by ring
    omega
  rw [mkenvid_fst, Nat.shiftLeft_eq, Nat.add_comm 1 c.LOG2NENV,
    Nat.mul_comm (i + 1) (2 ^ (c.LOG2NENV + 1)), ← Nat.mul_add_lt_is_or he2 (i + 1),
    Nat.mul_comm (2 ^ (c.LOG2NENV + 1)) (i + 1)]
  exact Nat.mod_eq_of_lt hlt

/-- The counter of `mkenvid` counts its calls, modulo `2 ^ 32`. -/
theorem mkenvid_counter_succ (c : Consts) (i : Nat) (es : List Nat) :
    (mkenvid_counter c i es + 1) % 2 ^ 32 = (i + es.length + 1) % 2 ^ 32 := by
  induction es generalizing i with
  | nil => simp [mkenvid_counter]
  | cons e es ih =>
    rw [mkenvid_counter, ih, mkenvid_snd, List.length_cons]
    omega

/-- While fewer than `2 ^ 32` calls have been made, the counter of `mkenvid` is the number
of calls. -/
theorem mkenvid_counter_eq (c : Consts) (i : Nat) (es : List Nat)
    (h : i + es.length < 2 ^ 32) : mkenvid_counter c i es = i + es.length := by
  induction es generalizing i with
  | nil => simp [mkenvid_counter]
  | cons e es ih =>
    rw [List.length_cons] at h
    have h1 : (i + 1) % 2 ^ 32 = i + 1 := Nat.mod_eq_of_lt (by omega)
    rw [mkenvid_counter, mkenvid_snd, h1, ih (i + 1) (by omega), List.length_cons]
    omega

/-- Two ids with different counter values differ, and an id is never zero, while the counter
value fits the bits above the slot index. -/
theorem mkenvid_ne (c : Consts) (i1 i2 s1 s2 : Nat) (hne : i1 ≠ i2)
    (h1 : i1 + 1 < 2 ^ (32 - (c.LOG2NENV + 1))) (h2 : i2 + 1 < 2 ^ (32 - (c.LOG2NENV + 1)))
    (hs1 : s1 < NENV c) (hs2 : s2 < NENV c) :
    (mkenvid c i1 s1).1 ≠ (mkenvid c i2 s2).1 ∧ (mkenvid c i1 s1).1 ≠ 0 := by
  rw [mkenvid_exact c i1 s1 h1 hs1, mkenvid_exact c i2 s2 h2 hs2]
  have hM : 0 < 2 ^ (c.LOG2NENV + 1) := Nat.pow_pos (by norm_num)
  have hlt : ∀ s, s < NENV c → s < 2 ^ (c.LOG2NENV + 1) := fun s hs =>
    lt_of_lt_of_le (by rw [← NENV_eq]; exact hs) (Nat.pow_le_pow_right (by norm_num) (by omega))
  have hdiv : ∀ i s, s < NENV c → ((i + 1) * 2 ^ (c.LOG2NENV + 1) + s) / 2 ^ (c.LOG2NENV + 1)
      = i + 1 := by
    intro i s hs
    rw [Nat.mul_comm, Nat.mul_add_div hM, Nat.div_eq_of_lt (hlt s hs)]
  constructor
  · intro heq
    have := congrArg (fun x => x / 2 ^ (c.LOG2NENV + 1)) heq
    simp only [hdiv i1 s1 hs1, hdiv i2 s2 hs2] at this
    omega
  · have : 2 ^ (c.LOG2NENV + 1) ≤ (i1 + 1) * 2 ^ (c.LOG2NENV + 1) :=
      Nat.le_mul_of_pos_left _ (by omega)
    omega

/-! ## What `env_alloc`, `env_create` and `env_free` do to the state -/

/-- The successful path of `env_alloc`, in one piece. -/
theorem env_alloc_ok (c : Consts) (s : Kernel) (parent_id pgdir e : Nat) (rest : List Nat)
    (a : Nat) (bm1 : Nat → Nat) (hl : s.env_free_list = e :: rest)
    (ha : asid_alloc s.asid_bitmap = (.ok a, bm1)) :
    env_alloc c s parent_id pgdir = (.ok e,
      { s with
        envs := store s.envs e
          { s.envs e with
            env_tf := { (s.envs e).env_tf with
              sie := c.SIE_UTIE
              sstatus := c.SSTATUS_UIE
              sscratch := (c.USTACKTOP + 2 ^ 64 - 4 - 8) % 2 ^ 64 }
            env_id := (mkenvid c s.mkenvid_i e).1
            env_asid := a
            env_parent_id := parent_id
            env_pgdir := pgdir
            env_user_tlb_mod_entry := 0
            env_runs := 0 }
        env_free_list := rest
        asid_bitmap := bm1
        mkenvid_i := (mkenvid c s.mkenvid_i e).2 }) := by
  simp [env_alloc, hl, ha, env_setup_vm, store_store, store_same]

/-- The path of `env_alloc` on which `asid_alloc` fails. -/
theorem env_alloc_no_asid (c : Consts) (s : Kernel) (parent_id pgdir e : Nat) (rest : List Nat)
    (r : Errno) (bm1 : Nat → Nat) (hl : s.env_free_list = e :: rest)
    (ha : asid_alloc s.asid_bitmap = (.error r, bm1)) :
    env_alloc c s parent_id pgdir = (.error r,
      { s with
        envs := store s.envs e
          { s.envs e with
            env_id := (mkenvid c s.mkenvid_i e).1
            env_pgdir := 0
            env_user_tlb_mod_entry := 0
            env_runs := 0 }
        asid_bitmap := bm1
        mkenvid_i := (mkenvid c s.mkenvid_i e).2 }) := by
  simp [env_alloc, hl, ha, store_store, store_same]

/-- The path of `env_alloc` on an empty free list. -/
theorem env_alloc_no_env (c : Consts) (s : Kernel) (parent_id pgdir : Nat)
    (hl : s.env_free_list = []) :
    env_alloc c s parent_id pgdir = (.error .E_NO_FREE_ENV, s) := by
  simp [env_alloc, hl]

/-- A successful `env_alloc` took the head of the free list and a free ASID. -/
theorem env_alloc_ok_inv (c : Consts) (s s1 : Kernel) (parent_id pgdir e : Nat)
    (h : env_alloc c s parent_id pgdir = (.ok e, s1)) :
    ∃ rest a bm1, s.env_free_list = e :: rest ∧ asid_alloc s.asid_bitmap = (.ok a, bm1) := by
  cases hl : s.env_free_list with
  | nil => rw [env_alloc_no_env c s parent_id pgdir hl] at h; simp at h
  | cons e1 rest =>
    rcases hres : asid_alloc s.asid_bitmap with ⟨r, bm1⟩
    cases r with
    | error r =>
      rw [env_alloc_no_asid c s parent_id pgdir e1 rest r bm1 hl hres] at h; simp at h
    | ok a =>
      rw [env_alloc_ok c s parent_id pgdir e1 rest a bm1 hl hres] at h
      simp only [Prod.mk.injEq, Except.ok.injEq] at h
      exact ⟨rest, a, bm1, by rw [h.1], rfl⟩

/-- A failing `env_alloc` found the free list empty, or found the bitmap full. -/
theorem env_alloc_error_inv (c : Consts) (s s1 : Kernel) (parent_id pgdir : Nat) (r : Errno)
    (h : env_alloc c s parent_id pgdir = (.error r, s1)) :
    (s.env_free_list = [] ∧ s1 = s) ∨
    (∃ e rest, s.env_free_list = e :: rest ∧
      s1 = { s with
        envs := store s.envs e
          { s.envs e with
            env_id := (mkenvid c s.mkenvid_i e).1
            env_pgdir := 0
            env_user_tlb_mod_entry := 0
            env_runs := 0 }
        mkenvid_i := (mkenvid c s.mkenvid_i e).2 }) := by
  cases hl : s.env_free_list with
  | nil =>
    rw [env_alloc_no_env c s parent_id pgdir hl] at h
    simp only [Prod.mk.injEq] at h
    exact Or.inl ⟨rfl, h.2.symm⟩
  | cons e1 rest =>
    rcases hres : asid_alloc s.asid_bitmap with ⟨r1, bm1⟩
    cases r1 with
    | error r1 =>
      rw [env_alloc_no_asid c s parent_id pgdir e1 rest r1 bm1 hl hres] at h
      simp only [Prod.mk.injEq] at h
      have hbm : bm1 = s.asid_bitmap :=
        ((asid_alloc_loop_result s.asid_bitmap NASID 0).1 r1 bm1 hres).2
      refine Or.inr ⟨e1, rest, rfl, ?_⟩
      rw [← h.2, hbm]
      simp [hl]
    | ok a =>
      rw [env_alloc_ok c s parent_id pgdir e1 rest a bm1 hl hres] at h; simp at h

/-- The successful path of `env_alloc`, field by field. -/
theorem env_alloc_ok_fields (c : Consts) (s : Kernel) (parent_id pgdir e : Nat)
    (rest : List Nat) (a : Nat) (bm1 : Nat → Nat) (hl : s.env_free_list = e :: rest)
    (ha : asid_alloc s.asid_bitmap = (.ok a, bm1)) :
    (env_alloc c s parent_id pgdir).1 = .ok e ∧
    (env_alloc c s parent_id pgdir).2.env_free_list = rest ∧
    (env_alloc c s parent_id pgdir).2.asid_bitmap = bm1 ∧
    (env_alloc c s parent_id pgdir).2.mkenvid_i = (s.mkenvid_i + 1) % 2 ^ 32 ∧
    (env_alloc c s parent_id pgdir).2.env_sched_list = s.env_sched_list ∧
    (env_alloc c s parent_id pgdir).2.curenv = s.curenv ∧
    ((env_alloc c s parent_id pgdir).2.envs e).env_id = (mkenvid c s.mkenvid_i e).1 ∧
    ((env_alloc c s parent_id pgdir).2.envs e).env_asid = a ∧
    ((env_alloc c s parent_id pgdir).2.envs e).env_status = (s.envs e).env_status ∧
    (∀ x, x ≠ e → (env_alloc c s parent_id pgdir).2.envs x = s.envs x) := by
  rw [env_alloc_ok c s parent_id pgdir e rest a bm1 hl ha]
  refine ⟨rfl, rfl, rfl, rfl, rfl, rfl, ?_, ?_, ?_, ?_⟩
  · simp [store_same]
  · simp [store_same]
  · simp [store_same]
  · intro x hx
    simp [store_other _ _ _ _ hx]

/-! ## The runnable queue: what its operations leave alone -/

@[simp]
theorem store_ref_envs (s : Kernel) (p : LinkRef) (v : Option Nat) :
    (store_ref s p v).envs = s.envs := by
  cases p <;> rfl

@[simp]
theorem store_ref_curenv (s : Kernel) (p : LinkRef) (v : Option Nat) :
    (store_ref s p v).curenv = s.curenv := by
  cases p <;> rfl

@[simp]
theorem store_ref_env_free_list (s : Kernel) (p : LinkRef) (v : Option Nat) :
    (store_ref s p v).env_free_list = s.env_free_list := by
  cases p <;> rfl

@[simp]
theorem store_ref_env_sched_list (s : Kernel) (p : LinkRef) (v : Option Nat) :
    (store_ref s p v).env_sched_list = s.env_sched_list := by
  cases p <;> rfl

@[simp]
theorem store_ref_asid_bitmap (s : Kernel) (p : LinkRef) (v : Option Nat) :
    (store_ref s p v).asid_bitmap = s.asid_bitmap := by
  cases p <;> rfl

@[simp]
theorem store_ref_mkenvid_i (s : Kernel) (p : LinkRef) (v : Option Nat) :
    (store_ref s p v).mkenvid_i = s.mkenvid_i := by
  cases p <;> rfl

/-- A store through a slot pointer faults exactly when the pointer is `NULL`. -/
theorem store_ref_fault (s : Kernel) (p : LinkRef) (v : Option Nat) :
    (store_ref s p v).fault = (s.fault || decide (p = .null)) := by
  cases p <;> simp [store_ref]

/-- A store through a slot pointer leaves every `tqe_prev` as it was. -/
theorem store_ref_tqe_prev (s : Kernel) (p : LinkRef) (v : Option Nat) (x : Nat) :
    ((store_ref s p v).env_sched_link x).tqe_prev = (s.env_sched_link x).tqe_prev := by
  cases p with
  | null => rfl
  | head_first => rfl
  | next_of j =>
    by_cases hx : x = j
    · subst hx; simp [store_ref, store_same]
    · simp [store_ref, store_other _ _ _ _ hx]

@[simp]
theorem TAILQ_INIT_envs (s : Kernel) : (TAILQ_INIT s).envs = s.envs := rfl

@[simp]
theorem TAILQ_INIT_curenv (s : Kernel) : (TAILQ_INIT s).curenv = s.curenv := rfl

@[simp]
theorem TAILQ_INIT_env_free_list (s : Kernel) :
    (TAILQ_INIT s).env_free_list = s.env_free_list := rfl

@[simp]
theorem TAILQ_INIT_env_sched_list (s : Kernel) : (TAILQ_INIT s).env_sched_list = [] :=
  rfl

@[simp]
theorem TAILQ_INIT_asid_bitmap (s : Kernel) :
    (TAILQ_INIT s).asid_bitmap = s.asid_bitmap := rfl

@[simp]
theorem TAILQ_INIT_mkenvid_i (s : Kernel) : (TAILQ_INIT s).mkenvid_i = s.mkenvid_i :=
  rfl

@[simp]
theorem TAILQ_INSERT_HEAD_envs (s : Kernel) (e : Nat) :
    (TAILQ_INSERT_HEAD s e).envs = s.envs := by
  unfold TAILQ_INSERT_HEAD; cases s.tqh_first <;> rfl

@[simp]
theorem TAILQ_INSERT_HEAD_curenv (s : Kernel) (e : Nat) :
    (TAILQ_INSERT_HEAD s e).curenv = s.curenv := by
  unfold TAILQ_INSERT_HEAD; cases s.tqh_first <;> rfl

@[simp]
theorem TAILQ_INSERT_HEAD_env_free_list (s : Kernel) (e : Nat) :
    (TAILQ_INSERT_HEAD s e).env_free_list = s.env_free_list := by
  unfold TAILQ_INSERT_HEAD; cases s.tqh_first <;> rfl

@[simp]
theorem TAILQ_INSERT_HEAD_asid_bitmap (s : Kernel) (e : Nat) :
    (TAILQ_INSERT_HEAD s e).asid_bitmap = s.asid_bitmap := by
  unfold TAILQ_INSERT_HEAD; cases s.tqh_first <;> rfl

@[simp]
theorem TAILQ_INSERT_HEAD_mkenvid_i (s : Kernel) (e : Nat) :
    (TAILQ_INSERT_HEAD s e).mkenvid_i = s.mkenvid_i := by
  unfold TAILQ_INSERT_HEAD; cases s.tqh_first <;> rfl

@[simp]
theorem TAILQ_INSERT_HEAD_fault (s : Kernel) (e : Nat) :
    (TAILQ_INSERT_HEAD s e).fault = s.fault := by
  unfold TAILQ_INSERT_HEAD; cases s.tqh_first <;> rfl

@[simp]
theorem TAILQ_INSERT_HEAD_env_sched_list (s : Kernel) (e : Nat) :
    (TAILQ_INSERT_HEAD s e).env_sched_list = e :: s.env_sched_list := by
  unfold TAILQ_INSERT_HEAD; cases s.tqh_first <;> rfl

@[simp]
theorem TAILQ_INSERT_HEAD_tqh_first (s : Kernel) (e : Nat) :
    (TAILQ_INSERT_HEAD s e).tqh_first = some e := by
  unfold TAILQ_INSERT_HEAD; cases s.tqh_first <;> rfl

/-- A traversal that does not visit slot `e` reads no link field of `e`. -/
theorem tailq_walk_congr (link link2 : Nat → SchedLink) (e : Nat)
    (h : ∀ x, x ≠ e → (link2 x).tqe_next = (link x).tqe_next) :
    ∀ n first, e ∉ tailq_walk link n first →
      tailq_walk link2 n first = tailq_walk link n first := by
  intro n
  induction n with
  | zero => intro first _; rfl
  | succ n ih =>
    intro first he
    cases first with
    | none => rfl
    | some x =>
      simp only [tailq_walk, List.mem_cons, not_or] at he ⊢
      have hxe : x ≠ e := fun hh => he.1 hh.symm
      rw [h x hxe, ih _ he.2]

/-- After `TAILQ_INSERT_HEAD` the `tqe_next` of the new slot is the old first slot, its
`tqe_prev` is the address of `tqh_first`, and no other `tqe_next` has changed. -/
theorem TAILQ_INSERT_HEAD_links (s : Kernel) (e : Nat) :
    (TAILQ_INSERT_HEAD s e).env_sched_link e
      = { tqe_next := s.tqh_first, tqe_prev := .head_first } ∧
    (∀ x, x ≠ e → ((TAILQ_INSERT_HEAD s e).env_sched_link x).tqe_next
      = (s.env_sched_link x).tqe_next) := by
  unfold TAILQ_INSERT_HEAD
  cases hf : s.tqh_first with
  | none =>
    refine ⟨by simp [store_same], ?_⟩
    intro x hx
    simp [store_other _ _ _ _ hx]
  | some f =>
    refine ⟨?_, ?_⟩
    · by_cases hef : e = f
      · subst hef; simp [store_same]
      · simp [store_same, store_other _ _ _ _ hef]
    intro x hx
    by_cases hxf : x = f
    · subst hxf
      simp [store_same, store_other _ _ _ _ hx]
    · simp [store_other _ _ _ _ hx, store_other _ _ _ _ hxf]

/-- `TAILQ_INSERT_HEAD` keeps the list of the queue and its pointers together: when the list
is what a traversal of at most `n` slots visits and `e` is not on it, the list after the
call is what a traversal of at most `n + 1` slots visits. -/
theorem TAILQ_INSERT_HEAD_walk (s : Kernel) (e n : Nat)
    (hq : s.env_sched_list = tailq_walk s.env_sched_link n s.tqh_first)
    (he : e ∉ s.env_sched_list) :
    (TAILQ_INSERT_HEAD s e).env_sched_list
      = tailq_walk (TAILQ_INSERT_HEAD s e).env_sched_link (n + 1)
          (TAILQ_INSERT_HEAD s e).tqh_first := by
  obtain ⟨h1, h2⟩ := TAILQ_INSERT_HEAD_links s e
  rw [TAILQ_INSERT_HEAD_tqh_first, TAILQ_INSERT_HEAD_env_sched_list]
  simp only [tailq_walk]
  rw [h1, tailq_walk_congr s.env_sched_link _ e h2 n s.tqh_first (hq ▸ he), ← hq]

@[simp]
theorem TAILQ_REMOVE_envs (c : Consts) (s : Kernel) (e : Nat) :
    (TAILQ_REMOVE c s e).envs = s.envs := by
  unfold TAILQ_REMOVE; cases (s.env_sched_link e).tqe_next <;> simp

@[simp]
theorem TAILQ_REMOVE_curenv (c : Consts) (s : Kernel) (e : Nat) :
    (TAILQ_REMOVE c s e).curenv = s.curenv := by
  unfold TAILQ_REMOVE; cases (s.env_sched_link e).tqe_next <;> simp

@[simp]
theorem TAILQ_REMOVE_env_free_list (c : Consts) (s : Kernel) (e : Nat) :
    (TAILQ_REMOVE c s e).env_free_list = s.env_free_list := by
  unfold TAILQ_REMOVE; cases (s.env_sched_link e).tqe_next <;> simp

@[simp]
theorem TAILQ_REMOVE_asid_bitmap (c : Consts) (s : Kernel) (e : Nat) :
    (TAILQ_REMOVE c s e).asid_bitmap = s.asid_bitmap := by
  unfold TAILQ_REMOVE; cases (s.env_sched_link e).tqe_next <;> simp

@[simp]
theorem TAILQ_REMOVE_mkenvid_i (c : Consts) (s : Kernel) (e : Nat) :
    (TAILQ_REMOVE c s e).mkenvid_i = s.mkenvid_i := by
  unfold TAILQ_REMOVE; cases (s.env_sched_link e).tqe_next <;> simp

/-- The queue after `TAILQ_REMOVE` is what a traversal from `tqh_first` visits. -/
theorem TAILQ_REMOVE_env_sched_list (c : Consts) (s : Kernel) (e : Nat) :
    (TAILQ_REMOVE c s e).env_sched_list
      = tailq_walk (TAILQ_REMOVE c s e).env_sched_link (NENV c) (TAILQ_REMOVE c s e).tqh_first := by
  unfold TAILQ_REMOVE; cases (s.env_sched_link e).tqe_next <;> rfl

/-- The slot `TAILQ_REMOVE` is applied to keeps its `tqe_prev`, unless its `tqe_next` is the
slot itself. -/
theorem TAILQ_REMOVE_tqe_prev_self (c : Consts) (s : Kernel) (e : Nat) :
    ((TAILQ_REMOVE c s e).env_sched_link e).tqe_prev = (s.env_sched_link e).tqe_prev := by
  unfold TAILQ_REMOVE
  cases hn : (s.env_sched_link e).tqe_next with
  | none => simp [store_ref_tqe_prev]
  | some n =>
    by_cases hne : e = n
    · subst hne; simp [store_ref_tqe_prev, store_same]
    · simp [store_ref_tqe_prev, store_other _ _ _ _ hne]

/-- `TAILQ_REMOVE` faults exactly when the `tqe_prev` of the slot is `NULL`, which is so for
a slot that has never been on the queue. -/
theorem TAILQ_REMOVE_fault (c : Consts) (s : Kernel) (e : Nat) :
    (TAILQ_REMOVE c s e).fault
      = (s.fault || decide ((s.env_sched_link e).tqe_prev = .null)) := by
  unfold TAILQ_REMOVE
  cases hn : (s.env_sched_link e).tqe_next with
  | none => simp [store_ref_fault]
  | some n =>
    by_cases hne : e = n
    · subst hne; simp [store_ref_fault, store_same]
    · simp [store_ref_fault, store_other _ _ _ _ hne]

/-- `TAILQ_REMOVE` never stores `NULL` in the `tqe_prev` of a slot that held another
value, when the `tqe_prev` of the slot removed is not `NULL`. -/
theorem TAILQ_REMOVE_tqe_prev_ne_null (c : Consts) (s : Kernel) (e x : Nat)
    (he : (s.env_sched_link e).tqe_prev ≠ .null) (hx : (s.env_sched_link x).tqe_prev ≠ .null) :
    ((TAILQ_REMOVE c s e).env_sched_link x).tqe_prev ≠ .null := by
  unfold TAILQ_REMOVE
  cases hn : (s.env_sched_link e).tqe_next with
  | none => simpa [store_ref_tqe_prev] using hx
  | some n =>
    by_cases hxn : x = n
    · subst hxn; simpa [store_ref_tqe_prev, store_same] using he
    · simpa [store_ref_tqe_prev, store_other _ _ _ _ hxn] using hx

/-- The function `env_create` after a successful `env_alloc`. -/
theorem env_create_ok (c : Consts) (s s1 : Kernel) (priority : Int)
    (entry pgdir pgdir2 e : Nat) (h : env_alloc c s 0 pgdir = (.ok e, s1)) :
    env_create c s priority entry pgdir pgdir2 = some (e,
      TAILQ_INSERT_HEAD
        { s1 with
          envs := store s1.envs e
            { s1.envs e with
              env_tf := { (s1.envs e).env_tf with sepc := entry }
              env_pgdir := pgdir2
              env_pri := priority
              env_status := .ENV_RUNNABLE } } e) := by
  simp [env_create, h, store_store, store_same]

/-- A successful `env_create` went through a successful `env_alloc`. -/
theorem env_create_inv (c : Consts) (s s2 : Kernel) (priority : Int)
    (entry pgdir pgdir2 e : Nat)
    (h : env_create c s priority entry pgdir pgdir2 = some (e, s2)) :
    ∃ s1, env_alloc c s 0 pgdir = (.ok e, s1) ∧
      s2 = TAILQ_INSERT_HEAD
        { s1 with
          envs := store s1.envs e
            { s1.envs e with
              env_tf := { (s1.envs e).env_tf with sepc := entry }
              env_pgdir := pgdir2
              env_pri := priority
              env_status := .ENV_RUNNABLE } } e := by
  rcases hres : env_alloc c s 0 pgdir with ⟨r, s1⟩
  cases r with
  | error r => simp [env_create, hres] at h
  | ok e1 =>
    rw [env_create_ok c s s1 priority entry pgdir pgdir2 e1 hres] at h
    simp only [Option.some.injEq, Prod.mk.injEq] at h
    obtain ⟨h1, h2⟩ := h
    subst h1
    exact ⟨s1, rfl, h2.symm⟩

/-- The function `env_free`, in one piece. -/
theorem env_free_eq (c : Consts) (s : Kernel) (e pgdir : Nat) :
    env_free c s e pgdir =
      TAILQ_REMOVE c
        { s with
          envs := store s.envs e { s.envs e with env_pgdir := pgdir, env_status := .ENV_FREE }
          asid_bitmap := asid_free s.asid_bitmap (s.envs e).env_asid
          env_free_list := e :: s.env_free_list } e := by
  simp [env_free, store_store, store_same]

/-- The function `env_alloc` writes neither the runnable queue nor `fault`, whatever it
returns. -/
theorem env_alloc_queue (c : Consts) (s : Kernel) (parent_id pgdir : Nat) :
    (env_alloc c s parent_id pgdir).2.env_sched_list = s.env_sched_list ∧
    (env_alloc c s parent_id pgdir).2.tqh_first = s.tqh_first ∧
    (env_alloc c s parent_id pgdir).2.tqh_last = s.tqh_last ∧
    (env_alloc c s parent_id pgdir).2.env_sched_link = s.env_sched_link ∧
    (env_alloc c s parent_id pgdir).2.fault = s.fault := by
  cases hl : s.env_free_list with
  | nil =>
    rw [env_alloc_no_env c s parent_id pgdir hl]
    exact ⟨rfl, rfl, rfl, rfl, rfl⟩
  | cons e rest =>
    rcases hres : asid_alloc s.asid_bitmap with ⟨r, bm⟩
    cases r with
    | error r =>
      rw [env_alloc_no_asid c s parent_id pgdir e rest r bm hl hres]
      exact ⟨rfl, rfl, rfl, rfl, rfl⟩
    | ok a =>
      rw [env_alloc_ok c s parent_id pgdir e rest a bm hl hres]
      exact ⟨rfl, rfl, rfl, rfl, rfl⟩

/-- The function `env_free` pushes the slot on the free list. -/
theorem env_free_env_free_list (c : Consts) (s : Kernel) (e pgdir : Nat) :
    (env_free c s e pgdir).env_free_list = e :: s.env_free_list := by
  rw [env_free_eq]; simp

/-- The function `env_free` faults exactly when the `tqe_prev` of the slot is `NULL`: its
`TAILQ_REMOVE` then stores through `NULL`. -/
theorem env_free_fault (c : Consts) (s : Kernel) (e pgdir : Nat) :
    (env_free c s e pgdir).fault
      = (s.fault || decide ((s.env_sched_link e).tqe_prev = .null)) := by
  rw [env_free_eq, TAILQ_REMOVE_fault]

/-- The function `env_free` of a slot whose `tqe_prev` is not `NULL` leaves no `NULL` in a
`tqe_prev` that held another value. -/
theorem env_free_tqe_prev_ne_null (c : Consts) (s : Kernel) (e pgdir x : Nat)
    (he : (s.env_sched_link e).tqe_prev ≠ .null) (hx : (s.env_sched_link x).tqe_prev ≠ .null) :
    ((env_free c s e pgdir).env_sched_link x).tqe_prev ≠ .null := by
  rw [env_free_eq]
  exact TAILQ_REMOVE_tqe_prev_ne_null c _ e x he hx

/-- What `TAILQ_INSERT_TAIL` leaves alone, and when it faults. -/
theorem TAILQ_INSERT_TAIL_frame (s : Kernel) (e : Nat) :
    (TAILQ_INSERT_TAIL s e).envs = s.envs ∧
    (TAILQ_INSERT_TAIL s e).curenv = s.curenv ∧
    (TAILQ_INSERT_TAIL s e).env_free_list = s.env_free_list ∧
    (TAILQ_INSERT_TAIL s e).asid_bitmap = s.asid_bitmap ∧
    (TAILQ_INSERT_TAIL s e).mkenvid_i = s.mkenvid_i ∧
    (TAILQ_INSERT_TAIL s e).fault = (s.fault || decide (s.tqh_last = .null)) := by
  unfold TAILQ_INSERT_TAIL
  cases hp : s.tqh_last with
  | null => simp
  | head_first => simp [store_ref]
  | next_of j => simp [store_ref]

/-- After a `TAILQ_INSERT_TAIL` on a head whose `tqh_last` is not `NULL`, `tqh_last` is the
address of the `tqe_next` of the new slot, and the `tqe_prev` of the new slot, like every
`tqe_prev` that was not `NULL`, is not `NULL`. -/
theorem TAILQ_INSERT_TAIL_links (s : Kernel) (e : Nat) (hl : s.tqh_last ≠ .null) :
    (TAILQ_INSERT_TAIL s e).tqh_last = .next_of e ∧
    (∀ x, x = e ∨ (s.env_sched_link x).tqe_prev ≠ .null →
      ((TAILQ_INSERT_TAIL s e).env_sched_link x).tqe_prev ≠ .null) := by
  unfold TAILQ_INSERT_TAIL
  cases hp : s.tqh_last with
  | null => exact absurd hp hl
  | head_first =>
    refine ⟨rfl, ?_⟩
    intro x hx
    by_cases hxe : x = e
    · subst hxe; simp [store_ref, store_same, hp]
    · rcases hx with hx | hx
      · exact absurd hx hxe
      · simpa [store_ref, store_other _ _ _ _ hxe] using hx
  | next_of j =>
    refine ⟨rfl, ?_⟩
    intro x hx
    show ((store_ref _ (LinkRef.next_of j) (some e)).env_sched_link x).tqe_prev ≠ .null
    rw [store_ref_tqe_prev]
    by_cases hxe : x = e
    · subst hxe; simp [store_same]
    · rcases hx with hx | hx
      · exact absurd hx hxe
      · simpa [store_other _ _ _ _ hxe] using hx

/-! ## The lookup of `envid2env` -/

/-- The lookup of `envid2env`, for an id that is not zero and carries the index of slot
`e` in its low bits: with `checkperm = 0` it returns `e` when the status of `e` is not
`ENV_FREE`, and it returns `-E_BAD_ENV` once `e` has been freed. -/
theorem envid2env_of_envx (c : Consts) (s : Kernel) (e : Nat)
    (hid : (s.envs e).env_id ≠ 0) (hx : ENVX c (s.envs e).env_id = e) :
    ((s.envs e).env_status ≠ .ENV_FREE →
      envid2env c s (s.envs e).env_id 0 = .ok (some e)) ∧
    (∀ pgdir, envid2env c (env_free c s e pgdir) (s.envs e).env_id 0 = .error .E_BAD_ENV) := by
  constructor
  · intro hst
    simp [envid2env, hid, hx, hst]
  · intro pgdir
    rw [env_free_eq]
    simp [envid2env, hid, hx, store_same]

/-- What the permission check of `envid2env` compares: for a non-zero `envid` naming a
non-free slot `e` with that id and a non-zero `checkperm`, the call succeeds exactly when
`e` is `curenv` or `e.env_parent_id` equals `checkperm` (as `u_int`); otherwise it returns
`-E_BAD_ENV`. The id of `curenv` is not read. -/
theorem envid2env_checkperm (c : Consts) (s : Kernel) (envid : Nat) (checkperm : Int)
    (h0 : envid ≠ 0) (hst : (s.envs (ENVX c envid)).env_status ≠ .ENV_FREE)
    (hid : (s.envs (ENVX c envid)).env_id = envid) (hc : checkperm ≠ 0) :
    envid2env c s envid checkperm =
      if some (ENVX c envid) = s.curenv ∨
          (s.envs (ENVX c envid)).env_parent_id = (checkperm % 2 ^ 32).toNat then
        .ok (some (ENVX c envid))
      else .error .E_BAD_ENV := by
  by_cases h : some (ENVX c envid) = s.curenv ∨
      (s.envs (ENVX c envid)).env_parent_id = (checkperm % 2 ^ 32).toNat
  · simp only [envid2env, h0, hst, hid, hc, h, if_true, if_false]
    simp
  · simp only [envid2env, h0, hst, hid, hc, h, if_true, if_false]
    simp [hc]

/-! ## The state after `env_init` -/

theorem env_init_loop_free_list (k : Nat) (s : Kernel) :
    (env_init_loop k s).env_free_list = List.range k ++ s.env_free_list := by
  induction k generalizing s with
  | zero => simp [env_init_loop]
  | succ k ih => simp [env_init_loop, ih, List.range_succ]

theorem env_init_loop_envs (k : Nat) (s : Kernel) (x : Nat) :
    (env_init_loop k s).envs x
      = if x < k then { s.envs x with env_status := .ENV_FREE } else s.envs x := by
  induction k generalizing s with
  | zero => simp [env_init_loop]
  | succ k ih =>
    rw [env_init_loop, ih]
    by_cases h1 : x < k
    · have h2 : x ≠ k := by omega
      have h3 : x < k + 1 := by omega
      simp [h1, h3, store_other _ _ _ _ h2]
    · by_cases h2 : x = k
      · subst h2
        simp [store_same]
      · have h3 : ¬ x < k + 1 := by omega
        simp [h1, h3, store_other _ _ _ _ h2]

theorem env_init_loop_frame (k : Nat) (s : Kernel) :
    (env_init_loop k s).curenv = s.curenv ∧
    (env_init_loop k s).env_sched_list = s.env_sched_list ∧
    (env_init_loop k s).asid_bitmap = s.asid_bitmap ∧
    (env_init_loop k s).mkenvid_i = s.mkenvid_i := by
  induction k generalizing s with
  | zero => simp [env_init_loop]
  | succ k ih =>
    rw [env_init_loop]
    exact ih _

theorem env_init_free_list (c : Consts) (s : Kernel) :
    (env_init c s).env_free_list = List.range (NENV c) := by
  simp [env_init, env_init_loop_free_list]

theorem env_init_sched_list (c : Consts) (s : Kernel) : (env_init c s).env_sched_list = [] := by
  simp [env_init, (env_init_loop_frame _ _).2.1]

theorem env_init_asid_bitmap (c : Consts) (s : Kernel) :
    (env_init c s).asid_bitmap = store s.asid_bitmap 0 (s.asid_bitmap 0 ||| 1) := by
  simp [env_init, (env_init_loop_frame _ _).2.2.1]

theorem env_init_mkenvid_i (c : Consts) (s : Kernel) :
    (env_init c s).mkenvid_i = s.mkenvid_i := by
  simp [env_init, (env_init_loop_frame _ _).2.2.2]

theorem env_init_status (c : Consts) (s : Kernel) (x : Nat) (hx : x < NENV c) :
    ((env_init c s).envs x).env_status = .ENV_FREE := by
  simp [env_init, env_init_loop_envs, hx]

/-- With at least three slots the free list after `env_init` starts with slots 0, 1, 2. -/
theorem env_init_free_list_three (c : Consts) (s : Kernel) (h2 : 2 ≤ c.LOG2NENV) :
    ∃ rest, (env_init c s).env_free_list = 0 :: 1 :: 2 :: rest := by
  have h4 : 2 ^ 2 ≤ 2 ^ c.LOG2NENV := Nat.pow_le_pow_right (by norm_num) h2
  obtain ⟨n, hn⟩ : ∃ n, NENV c = n + 3 := ⟨NENV c - 3, by rw [NENV_eq]; omega⟩
  refine ⟨List.range' 3 n, ?_⟩
  rw [env_init_free_list, hn, List.range_eq_range']
  simp [List.range'_succ]

/-! ## The invariant of the process table -/

theorem TableInv_init (c : Consts) (s0 : Kernel) : TableInv c (env_init c s0) [] where
  free_nodup := by rw [env_init_free_list]; exact List.nodup_range _
  free_lt := by intro e he; rw [env_init_free_list] at he; exact List.mem_range.1 he
  free_iff := by intro e he; rw [env_init_free_list]; simp [he]
  live_lt := by intro e he; simp at he
  free_status := by
    intro e he
    rw [env_init_free_list] at he
    exact env_init_status c s0 e (List.mem_range.1 he)
  asid_set := by intro e he; simp at he
  asid_inj := by intro e1 e2 he; simp at he

theorem TableInv_alloc_ok (c : Consts) (s s1 : Kernel) (live : List Nat)
    (parent_id pgdir e : Nat) (hinv : TableInv c s live)
    (h : env_alloc c s parent_id pgdir = (.ok e, s1)) : TableInv c s1 (e :: live) := by
  obtain ⟨rest, a, bm1, hl, ha⟩ := env_alloc_ok_inv c s s1 parent_id pgdir e h
  obtain ⟨-, f1, f2, -, -, -, -, f6, f7, f8⟩ :=
    env_alloc_ok_fields c s parent_id pgdir e rest a bm1 hl ha
  rw [h] at f1 f2 f6 f7 f8
  simp only at f1 f2 f6 f7 f8
  obtain ⟨-, -, hclear, hbm⟩ := (asid_alloc_loop_result s.asid_bitmap NASID 0).2 a bm1 ha
  have hbit : ∀ j, asid_bit bm1 j = (asid_bit s.asid_bitmap j || decide (j = a)) := by
    intro j; rw [hbm]; exact asid_bit_set _ a j
  have hnd : (e :: rest).Nodup := by rw [← hl]; exact hinv.free_nodup
  have he_free : e ∈ s.env_free_list := by rw [hl]; exact List.mem_cons_self _ _
  have he_lt : e < NENV c := hinv.free_lt e he_free
  have hlive_ne : ∀ x, x ∈ live → x ≠ e := by
    intro x hx hxe
    subst hxe
    exact ((hinv.free_iff x (hinv.live_lt x hx)).1 he_free) hx
  have hstatus : ∀ x, (s1.envs x).env_status = (s.envs x).env_status := by
    intro x
    by_cases hx : x = e
    · rw [hx, f7]
    · rw [f8 x hx]
  have hasid : ∀ x, x ≠ e → (s1.envs x).env_asid = (s.envs x).env_asid := by
    intro x hx; rw [f8 x hx]
  refine
    { free_nodup := ?_, free_lt := ?_, free_iff := ?_, live_lt := ?_, free_status := ?_,
      asid_set := ?_, asid_inj := ?_ }
  · rw [f1]; exact (List.nodup_cons.1 hnd).2
  · intro x hx
    rw [f1] at hx
    exact hinv.free_lt x (by rw [hl]; exact List.mem_cons_of_mem _ hx)
  · intro x hx
    rw [f1]
    have h1 := hinv.free_iff x hx
    rw [hl] at h1
    have hne : e ∉ rest := (List.nodup_cons.1 hnd).1
    constructor
    · intro hxr hxl
      rcases List.mem_cons.1 hxl with hxe | hxl
      · exact hne (hxe ▸ hxr)
      · exact (h1.1 (List.mem_cons_of_mem _ hxr)) hxl
    · intro hxl
      have hx1 : x ∉ live := fun hh => hxl (List.mem_cons_of_mem _ hh)
      have hx2 : x ≠ e := fun hh => hxl (hh ▸ List.mem_cons_self _ _)
      rcases List.mem_cons.1 (h1.2 hx1) with hxe | hxr
      · exact absurd hxe hx2
      · exact hxr
  · intro x hx
    rcases List.mem_cons.1 hx with hxe | hxl
    · rw [hxe]; exact he_lt
    · exact hinv.live_lt x hxl
  · intro x hx
    rw [f1] at hx
    rw [hstatus]
    exact hinv.free_status x (by rw [hl]; exact List.mem_cons_of_mem _ hx)
  · intro x hx
    rw [f2, hbit]
    rcases List.mem_cons.1 hx with hxe | hxl
    · rw [hxe, f6]; simp
    · rw [hasid x (hlive_ne x hxl), hinv.asid_set x hxl]; simp
  · intro x1 x2 h1 h2 hne
    have key : ∀ x, x ∈ live → (s.envs x).env_asid ≠ a := by
      intro x hx hxa
      have := hinv.asid_set x hx
      rw [hxa, hclear] at this
      exact absurd this (by decide)
    rcases List.mem_cons.1 h1 with h1e | h1l <;> rcases List.mem_cons.1 h2 with h2e | h2l
    · exact absurd (h1e.trans h2e.symm) hne
    · rw [h1e, f6, hasid x2 (hlive_ne x2 h2l)]
      exact fun hh => key x2 h2l hh.symm
    · rw [h2e, f6, hasid x1 (hlive_ne x1 h1l)]
      exact key x1 h1l
    · rw [hasid x1 (hlive_ne x1 h1l), hasid x2 (hlive_ne x2 h2l)]
      exact hinv.asid_inj x1 x2 h1l h2l hne

theorem TableInv_alloc_err (c : Consts) (s s1 : Kernel) (live : List Nat)
    (parent_id pgdir : Nat) (r : Errno) (hinv : TableInv c s live)
    (h : env_alloc c s parent_id pgdir = (.error r, s1)) : TableInv c s1 live := by
  rcases env_alloc_error_inv c s s1 parent_id pgdir r h with ⟨-, h1⟩ | ⟨e, rest, -, h1⟩
  · rw [h1]; exact hinv
  · have hstatus : ∀ x, (s1.envs x).env_status = (s.envs x).env_status := by
      intro x
      rw [h1]
      by_cases hx : x = e
      · simp [hx, store_same]
      · simp [store_other _ _ _ _ hx]
    have hasid : ∀ x, (s1.envs x).env_asid = (s.envs x).env_asid := by
      intro x
      rw [h1]
      by_cases hx : x = e
      · simp [hx, store_same]
      · simp [store_other _ _ _ _ hx]
    have hfree : s1.env_free_list = s.env_free_list := by rw [h1]
    have hbm : s1.asid_bitmap = s.asid_bitmap := by rw [h1]
    refine
      { free_nodup := ?_, free_lt := ?_, free_iff := ?_, live_lt := hinv.live_lt,
        free_status := ?_, asid_set := ?_, asid_inj := ?_ }
    · rw [hfree]; exact hinv.free_nodup
    · rw [hfree]; exact hinv.free_lt
    · rw [hfree]; exact hinv.free_iff
    · intro x hx
      rw [hfree] at hx
      rw [hstatus]
      exact hinv.free_status x hx
    · intro x hx
      rw [hbm, hasid]
      exact hinv.asid_set x hx
    · intro x1 x2 h1 h2 hne
      rw [hasid, hasid]
      exact hinv.asid_inj x1 x2 h1 h2 hne

theorem TableInv_create (c : Consts) (s s2 : Kernel) (live : List Nat) (priority : Int)
    (entry pgdir pgdir2 e : Nat) (hinv : TableInv c s live)
    (h : env_create c s priority entry pgdir pgdir2 = some (e, s2)) :
    TableInv c s2 (e :: live) := by
  obtain ⟨s1, halloc, h2⟩ := env_create_inv c s s2 priority entry pgdir pgdir2 e h
  have hinv1 := TableInv_alloc_ok c s s1 live 0 pgdir e hinv halloc
  obtain ⟨rest, a, bm1, hl, ha⟩ := env_alloc_ok_inv c s s1 0 pgdir e halloc
  have hst1 : (s1.envs e).env_status = .ENV_FREE := by
    have := (env_alloc_ok_fields c s 0 pgdir e rest a bm1 hl ha).2.2.2.2.2.2.2.2.1
    rw [halloc] at this
    simp only at this
    rw [this]
    exact hinv.free_status e (by rw [hl]; exact List.mem_cons_self _ _)
  have he_lt : e < NENV c := hinv1.live_lt e (List.mem_cons_self _ _)
  have he_nfree : e ∉ s1.env_free_list :=
    fun hh => ((hinv1.free_iff e he_lt).1 hh) (List.mem_cons_self _ _)
  have hstatus_e : (s2.envs e).env_status = .ENV_RUNNABLE := by
    rw [h2]; simp [store_same]
  have hstatus : ∀ x, x ≠ e → (s2.envs x).env_status = (s1.envs x).env_status := by
    intro x hx; rw [h2]; simp [store_other _ _ _ _ hx]
  have hasid : ∀ x, (s2.envs x).env_asid = (s1.envs x).env_asid := by
    intro x
    rw [h2]
    by_cases hx : x = e
    · simp [hx, store_same]
    · simp [store_other _ _ _ _ hx]
  have hfree : s2.env_free_list = s1.env_free_list := by rw [h2]; simp
  have hbm : s2.asid_bitmap = s1.asid_bitmap := by rw [h2]; simp
  refine
    { free_nodup := ?_, free_lt := ?_, free_iff := ?_, live_lt := hinv1.live_lt,
      free_status := ?_, asid_set := ?_, asid_inj := ?_ }
  · rw [hfree]; exact hinv1.free_nodup
  · rw [hfree]; exact hinv1.free_lt
  · rw [hfree]; exact hinv1.free_iff
  · intro x hx
    rw [hfree] at hx
    have hxe : x ≠ e := fun hh => he_nfree (hh ▸ hx)
    rw [hstatus x hxe]
    exact hinv1.free_status x hx
  · intro x hx
    rw [hbm, hasid]
    exact hinv1.asid_set x hx
  · intro x1 x2 h1 h2 hne
    rw [hasid, hasid]
    exact hinv1.asid_inj x1 x2 h1 h2 hne

theorem TableInv_free (c : Consts) (s : Kernel) (live : List Nat) (e pgdir : Nat)
    (hinv : TableInv c s live) (he : e ∈ live) :
    TableInv c (env_free c s e pgdir) (live.filter (fun x => x ≠ e)) := by
  have he_lt : e < NENV c := hinv.live_lt e he
  have he_nfree : e ∉ s.env_free_list := fun hh => ((hinv.free_iff e he_lt).1 hh) he
  have hmem : ∀ x, x ∈ live.filter (fun x => x ≠ e) ↔ x ∈ live ∧ x ≠ e := by
    intro x; simp [List.mem_filter]
  have hstatus_e : ((env_free c s e pgdir).envs e).env_status = .ENV_FREE := by
    rw [env_free_eq]; simp [store_same]
  have hstatus : ∀ x, x ≠ e →
      ((env_free c s e pgdir).envs x).env_status = (s.envs x).env_status := by
    intro x hx; rw [env_free_eq]; simp [store_other _ _ _ _ hx]
  have hasid : ∀ x, ((env_free c s e pgdir).envs x).env_asid = (s.envs x).env_asid := by
    intro x
    rw [env_free_eq]
    by_cases hx : x = e
    · simp [hx, store_same]
    · simp [store_other _ _ _ _ hx]
  have hfree : (env_free c s e pgdir).env_free_list = e :: s.env_free_list := by
    rw [env_free_eq]; simp
  have hbm : (env_free c s e pgdir).asid_bitmap
      = asid_free s.asid_bitmap (s.envs e).env_asid := by
    rw [env_free_eq]; simp
  refine
    { free_nodup := ?_, free_lt := ?_, free_iff := ?_, live_lt := ?_,
      free_status := ?_, asid_set := ?_, asid_inj := ?_ }
  · rw [hfree]; exact List.nodup_cons.2 ⟨he_nfree, hinv.free_nodup⟩
  · intro x hx
    rw [hfree] at hx
    rcases List.mem_cons.1 hx with hh | hh
    · rw [hh]; exact he_lt
    · exact hinv.free_lt x hh
  · intro x hx
    rw [hfree, hmem, List.mem_cons, hinv.free_iff x hx]
    by_cases hxe : x = e <;> simp [hxe]
  · intro x hx
    exact hinv.live_lt x ((hmem x).1 hx).1
  · intro x hx
    rw [hfree] at hx
    by_cases hxe : x = e
    · rw [hxe]; exact hstatus_e
    · rcases List.mem_cons.1 hx with hh | hh
      · exact absurd hh hxe
      · rw [hstatus x hxe]; exact hinv.free_status x hh
  · intro x hx
    obtain ⟨hxl, hxe⟩ := (hmem x).1 hx
    rw [hbm, hasid, asid_bit_free, hinv.asid_set x hxl]
    have := hinv.asid_inj x e hxl he hxe
    simp [this]
  · intro x1 x2 h1 h2 hne
    rw [hasid, hasid]
    exact hinv.asid_inj x1 x2 ((hmem x1).1 h1).1 ((hmem x2).1 h2).1 hne

/-- Every reachable state satisfies the invariant of the process table. -/
theorem Reachable_inv (c : Consts) (s : Kernel) (live : List Nat) (h : Reachable c s live) :
    TableInv c s live := by
  induction h with
  | init s0 => exact TableInv_init c s0
  | alloc_ok parent_id pgdir e s1 _ hstep ih =>
    exact TableInv_alloc_ok c _ s1 _ parent_id pgdir e ih hstep
  | alloc_err parent_id pgdir r s1 _ hstep ih =>
    exact TableInv_alloc_err c _ s1 _ parent_id pgdir r ih hstep
  | create priority entry pgdir pgdir2 e s1 _ hstep ih =>
    exact TableInv_create c _ s1 _ priority entry pgdir pgdir2 e ih hstep
  | free e pgdir _ he ih => exact TableInv_free c _ _ e pgdir ih he

/-- In every reachable state the id of a live slot carries the index of the slot in its low
bits: `envs[ENVX(id)]` is the slot itself. -/
theorem Reachable_live_envx (c : Consts) (hL : c.LOG2NENV ≤ 32) (s : Kernel)
    (live : List Nat) (h : Reachable c s live) :
    ∀ e, e ∈ live → ENVX c (s.envs e).env_id = e := by
  have step_ok : ∀ (s s1 : Kernel) (live : List Nat) (parent_id pgdir e : Nat),
      TableInv c s live → (∀ x, x ∈ live → ENVX c (s.envs x).env_id = x) →
      env_alloc c s parent_id pgdir = (.ok e, s1) →
      ∀ x, x ∈ e :: live → ENVX c (s1.envs x).env_id = x := by
    intro s s1 live parent_id pgdir e hinv ih hstep x hx
    obtain ⟨rest, a, bm1, hl, ha⟩ := env_alloc_ok_inv c s s1 parent_id pgdir e hstep
    obtain ⟨-, -, -, -, -, -, f5, -, -, f8⟩ :=
      env_alloc_ok_fields c s parent_id pgdir e rest a bm1 hl ha
    rw [hstep] at f5 f8
    simp only at f5 f8
    have he_free : e ∈ s.env_free_list := by rw [hl]; exact List.mem_cons_self _ _
    by_cases hxe : x = e
    · rw [hxe, f5]
      exact ENVX_mkenvid c _ e hL (hinv.free_lt e he_free)
    · rcases List.mem_cons.1 hx with hh | hh
      · exact absurd hh hxe
      · rw [f8 x hxe]; exact ih x hh
  induction h with
  | init s0 => intro e he; simp at he
  | alloc_ok parent_id pgdir e s1 hprev hstep ih =>
    exact step_ok _ s1 _ parent_id pgdir e (Reachable_inv c _ _ hprev) ih hstep
  | @alloc_err s live parent_id pgdir r s1 hprev hstep ih =>
    intro x hx
    have hinv := Reachable_inv c _ _ hprev
    rcases env_alloc_error_inv c s s1 parent_id pgdir r hstep with ⟨-, h1⟩ | ⟨e, rest, hl, h1⟩
    · rw [h1]; exact ih x hx
    · have hxe : x ≠ e := by
        intro hh
        have he_free : e ∈ s.env_free_list := by rw [hl]; exact List.mem_cons_self _ _
        exact ((hinv.free_iff e (hinv.free_lt e he_free)).1 he_free) (hh ▸ hx)
      rw [h1]
      simp only [store_other _ _ _ _ hxe]
      exact ih x hx
  | @create s live priority entry pgdir pgdir2 e s2 hprev hstep ih =>
    intro x hx
    obtain ⟨s1, halloc, h2⟩ := env_create_inv c s s2 priority entry pgdir pgdir2 e hstep
    have h1 := step_ok s s1 live 0 pgdir e (Reachable_inv c _ _ hprev) ih halloc x hx
    have hid : (s2.envs x).env_id = (s1.envs x).env_id := by
      rw [h2]
      by_cases hxe : x = e
      · simp [hxe, store_same]
      · simp [store_other _ _ _ _ hxe]
    rw [hid]; exact h1
  | @free s live e pgdir hprev he ih =>
    intro x hx
    have hxl : x ∈ live := (List.mem_filter.1 hx).1
    have hid : ((env_free c s e pgdir).envs x).env_id = (s.envs x).env_id := by
      rw [env_free_eq]
      by_cases hxe : x = e
      · simp [hxe, store_same]
      · simp [store_other _ _ _ _ hxe]
    rw [hid]; exact ih x hxl

/-! ## The sample states are reachable -/

theorem sample_allocated_reachable : Reachable consts10 sample_allocated [0] :=
  Reachable.alloc_ok 0 0x81000000 0 sample_allocated (Reachable.init boot) rfl

theorem sample_created_reachable : Reachable consts10 sample_created [0] :=
  Reachable.create 1 0x400000 0x81000000 0x81000000 0 sample_created (Reachable.init boot) rfl

theorem sample_two_reachable : Reachable consts10 sample_two [1, 0] :=
  Reachable.create 2 0x400000 0x81002000 0x81002000 1 sample_two sample_created_reachable rfl

/-- The runnable queue in the sample states, as a list and as a traversal of the pointers:
`env_free` of slot 1 of `sample_two`, the head of the queue, leaves slot 0; `env_free` of
slot 0 then leaves the queue empty, as `TAILQ_INIT` makes it. -/
theorem sample_queues :
    sample_two.env_sched_list = [1, 0] ∧
    tailq_walk sample_two.env_sched_link (NENV consts10) sample_two.tqh_first = [1, 0] ∧
    sample_two.tqh_last = .next_of 0 ∧
    sample_stale_freed.env_sched_list = [0] ∧
    sample_stale_freed.fault = false ∧
    sample_stale_freed.env_sched_link 0 = { tqe_next := none, tqe_prev := .head_first } ∧
    sample_recycled.env_sched_list = [] ∧
    sample_recycled.tqh_first = none ∧
    sample_recycled.tqh_last = .head_first ∧
    sample_recycled.fault = false :=
  ⟨rfl, rfl, rfl, rfl, rfl, rfl, rfl, rfl, rfl, rfl⟩

theorem sample_stale_freed_reachable : Reachable consts10 sample_stale_freed [0] :=
  Reachable.free 1 0 sample_two_reachable (by decide)

theorem sample_stale_alloc_reachable : Reachable consts10 sample_stale_alloc [1, 0] :=
  Reachable.alloc_ok 2048 0x81003000 1 sample_stale_alloc sample_stale_freed_reachable rfl

theorem sample_stale_created_reachable : Reachable consts10 sample_stale_created [2, 1, 0] :=
  Reachable.create 3 0x400000 0x81004000 0x81004000 2 sample_stale_created
    sample_stale_alloc_reachable rfl

/-! ## C1: the ASID allocator -/

/-- C1: for every ASID bitmap, if some bit below `NASID = 64` is clear then `asid_alloc`
returns 0 and stores the smallest index `i` whose bit is clear, and the bitmap afterwards
is the old one with bit `i` set and nothing else changed (word `i / 32` is or-ed with
`1 << (i % 32)`; bit by bit, bit `j` is set afterwards exactly when it was set before or
`j = i`); if all 64 bits are set it returns `-E_NO_FREE_ENV` and the bitmap is unchanged. -/
theorem asid_alloc_spec (bm : Nat → Nat) :
    ((∃ j, j < NASID ∧ asid_bit bm j = false) →
      ∃ i, i < NASID ∧ asid_bit bm i = false ∧ (∀ j, j < i → asid_bit bm j = true) ∧
        (asid_alloc bm).1 = .ok i ∧
        (asid_alloc bm).2 = store bm (i / 32) (bm (i / 32) ||| 2 ^ (i % 32)) ∧
        (∀ j, asid_bit (asid_alloc bm).2 j = (asid_bit bm j || decide (j = i)))) ∧
    ((∀ j, j < NASID → asid_bit bm j = true) →
      asid_alloc bm = (.error .E_NO_FREE_ENV, bm)) := by
  constructor
  · intro hex
    classical
    have hmin := Nat.find_spec hex
    have hlow : ∀ j, j < Nat.find hex → asid_bit bm j = true := by
      intro j hj
      have hn := Nat.find_min hex hj
      have hj64 : j < NASID := lt_trans hj hmin.1
      cases hb : asid_bit bm j with
      | true => rfl
      | false => exact absurd ⟨hj64, hb⟩ hn
    have hrun := asid_alloc_loop_first bm NASID 0 (Nat.find hex) (Nat.zero_le _)
      (by simpa using hmin.1) hmin.2 (fun j _ hj => hlow j hj)
    have h5 : Nat.find hex >>> 5 = Nat.find hex / 32 := by rw [Nat.shiftRight_eq_div_pow]
    have h31 : Nat.find hex &&& 31 = Nat.find hex % 32 :=
      Nat.and_pow_two_sub_one_eq_mod (Nat.find hex) 5
    refine ⟨Nat.find hex, hmin.1, hmin.2, hlow, ?_, ?_, ?_⟩
    · simp only [asid_alloc, hrun]
    · simp only [asid_alloc, hrun, h5, h31, Nat.one_shiftLeft]
    · intro j
      simp only [asid_alloc, hrun]
      exact asid_bit_set bm (Nat.find hex) j
  · intro hall
    exact asid_alloc_loop_full bm NASID 0 (fun j _ hj => hall j (by simpa using hj))

/-- C1 at two bitmaps: with word 0 full and the low 31 bits of word 1 taken the call returns
ASID 63; with both words full it fails. -/
theorem asid_alloc_spec_witness :
    (∃ i, i < NASID ∧
        asid_bit (fun k => if k = 0 then 2 ^ 32 - 1 else 2 ^ 31 - 1) i = false ∧
        (∀ j, j < i → asid_bit (fun k => if k = 0 then 2 ^ 32 - 1 else 2 ^ 31 - 1) j = true) ∧
        (asid_alloc (fun k => if k = 0 then 2 ^ 32 - 1 else 2 ^ 31 - 1)).1 = .ok i ∧
        (asid_alloc (fun k => if k = 0 then 2 ^ 32 - 1 else 2 ^ 31 - 1)).2
          = store (fun k => if k = 0 then 2 ^ 32 - 1 else 2 ^ 31 - 1) (i / 32)
              ((fun k => if k = 0 then 2 ^ 32 - 1 else 2 ^ 31 - 1) (i / 32) ||| 2 ^ (i % 32)) ∧
        (∀ j, asid_bit (asid_alloc (fun k => if k = 0 then 2 ^ 32 - 1 else 2 ^ 31 - 1)).2 j
          = (asid_bit (fun k => if k = 0 then 2 ^ 32 - 1 else 2 ^ 31 - 1) j || decide (j = i)))) ∧
    asid_alloc (fun _ => 2 ^ 32 - 1) = (.error .E_NO_FREE_ENV, fun _ => 2 ^ 32 - 1) :=
  ⟨(asid_alloc_spec (fun k => if k = 0 then 2 ^ 32 - 1 else 2 ^ 31 - 1)).1
      ⟨63, by decide, by decide⟩,
    (asid_alloc_spec (fun _ => 2 ^ 32 - 1)).2 (by decide)⟩

/-! ## C2: `envid2env` on live and on freed slots -/

/-- C2, the claim as stated fails: from boot, `env_init` and a successful `env_alloc(0)`
return slot 0 with id 2048, and `envid2env(2048, 0)` on that live slot returns
`-E_BAD_ENV`, because `env_alloc` has left the status of the slot `ENV_FREE`. -/
theorem envid2env_live_counterexample :
    (env_alloc consts10 (env_init consts10 boot) 0 0x81000000).1 = .ok 0 ∧
    ((env_alloc consts10 (env_init consts10 boot) 0 0x81000000).2.envs 0).env_id = 2048 ∧
    ((env_alloc consts10 (env_init consts10 boot) 0 0x81000000).2.envs 0).env_status
      = .ENV_FREE ∧
    envid2env consts10 (env_alloc consts10 (env_init consts10 boot) 0 0x81000000).2 2048 0
      = .error .E_BAD_ENV :=
  ⟨rfl, rfl, rfl, rfl⟩

/-- C2, amended: in every state reachable from `env_init` by `env_alloc`, `env_create` and
`env_free` of live slots (with `LOG2NENV ≤ 32`), for every live slot `e` whose id is not
zero: `envid2env(e.id, 0)` returns `e` as soon as the status of `e` is not `ENV_FREE`, and
after `env_free(e)` the call `envid2env` with the id `e` had before the free returns
`-E_BAD_ENV`. -/
theorem envid2env_live_freed (c : Consts) (hL : c.LOG2NENV ≤ 32) (s : Kernel)
    (live : List Nat) (h : Reachable c s live) (e : Nat) (he : e ∈ live)
    (hid : (s.envs e).env_id ≠ 0) :
    ((s.envs e).env_status ≠ .ENV_FREE →
      envid2env c s (s.envs e).env_id 0 = .ok (some e)) ∧
    (∀ pgdir, envid2env c (env_free c s e pgdir) (s.envs e).env_id 0 = .error .E_BAD_ENV) :=
  envid2env_of_envx c s e hid (Reachable_live_envx c hL s live h e he)

/-- C2 amended, on the runnable live slot 0 of `sample_created` (id 2048). -/
theorem envid2env_live_freed_witness :
    (consts10.LOG2NENV ≤ 32 ∧ Reachable consts10 sample_created [0] ∧ 0 ∈ [0] ∧
      (sample_created.envs 0).env_id ≠ 0) ∧
    (sample_created.envs 0).env_status ≠ .ENV_FREE ∧
    ((sample_created.envs 0).env_status ≠ .ENV_FREE →
      envid2env consts10 sample_created (sample_created.envs 0).env_id 0 = .ok (some 0)) ∧
    (∀ pgdir, envid2env consts10 (env_free consts10 sample_created 0 pgdir)
      (sample_created.envs 0).env_id 0 = .error .E_BAD_ENV) :=
  ⟨⟨by decide, sample_created_reachable, by decide, by decide⟩, by decide,
    envid2env_live_freed consts10 (by decide) sample_created [0] sample_created_reachable 0
      (by decide) (by decide)⟩

/-! ## C3: the permission check of `envid2env` -/

/-- C3, the code at a failing input: in `sample_child` the current process is slot 0 (id
2048) and slot 1 (id 4097, `ENV_NOT_RUNNABLE`) is its immediate child, yet
`envid2env(4097, 1)` returns `-E_BAD_ENV`, because the code compares the parent id with
`checkperm` and not with the id of `curenv`. The other way round, with no current process
at all, `envid2env(4097, 2048)` succeeds. -/
theorem envid2env_checkperm_child_rejected :
    sample_child.curenv = some 0 ∧
    (sample_child.envs 0).env_id = 2048 ∧
    (sample_child.envs 1).env_id = 4097 ∧
    (sample_child.envs 1).env_status = .ENV_NOT_RUNNABLE ∧
    (sample_child.envs 1).env_parent_id = (sample_child.envs 0).env_id ∧
    envid2env consts10 sample_child 4097 1 = .error .E_BAD_ENV ∧
    envid2env consts10 { sample_child with curenv := none } 4097 2048 = .ok (some 1) :=
  ⟨rfl, rfl, rfl, rfl, rfl, rfl, rfl⟩

/-! ## C4: `env_alloc` on an empty free list -/

/-- C4: in every state whose free list is empty, `env_alloc` returns `-E_NO_FREE_ENV`
without storing through `new`, and the state after the call is the state before it: `envs`,
both lists, the ASID bitmap, `curenv` and the counter of `mkenvid`. -/
theorem env_alloc_empty_free_list (c : Consts) (s : Kernel) (parent_id pgdir : Nat)
    (h : s.env_free_list = []) :
    env_alloc c s parent_id pgdir = (.error .E_NO_FREE_ENV, s) := by
  unfold env_alloc
  rw [h]

/-- C4 on the boot state, whose free list is still empty. -/
theorem env_alloc_empty_free_list_witness :
    boot.env_free_list = [] ∧
    env_alloc consts10 boot 0 0x81000000 = (.error .E_NO_FREE_ENV, boot) :=
  ⟨rfl, env_alloc_empty_free_list consts10 boot 0 0x81000000 rfl⟩

/-! ## C5: the ids of the first three slots -/

/-- C5: from boot and `env_init` (counter of `mkenvid` at 0), with at least three slots
(`2 ≤ LOG2NENV`), three successive `env_alloc(0)` calls succeed and return slots 0, 1 and 2
in that order, with the ids `(1 << (LOG2NENV+1)) | 0`, `(2 << (LOG2NENV+1)) | 1` and
`(3 << (LOG2NENV+1)) | 2` in 32-bit arithmetic; and in general the call of `mkenvid` number
`k` since boot, on slot index `s`, returns `(k << (LOG2NENV+1)) | s` in 32-bit arithmetic,
whatever slots the calls before it were for. -/
theorem env_alloc_three_ids (c : Consts) (h2 : 2 ≤ c.LOG2NENV) (p0 p1 p2 : Nat) :
    ((env_alloc c (env_init c boot) 0 p0).1 = .ok 0 ∧
      (env_alloc c (env_alloc c (env_init c boot) 0 p0).2 0 p1).1 = .ok 1 ∧
      (env_alloc c (env_alloc c (env_alloc c (env_init c boot) 0 p0).2 0 p1).2 0 p2).1
        = .ok 2 ∧
      ((env_alloc c (env_alloc c (env_alloc c (env_init c boot) 0 p0).2 0 p1).2 0 p2).2.envs
        0).env_id = ((1 <<< (c.LOG2NENV + 1)) ||| 0) % 2 ^ 32 ∧
      ((env_alloc c (env_alloc c (env_alloc c (env_init c boot) 0 p0).2 0 p1).2 0 p2).2.envs
        1).env_id = ((2 <<< (c.LOG2NENV + 1)) ||| 1) % 2 ^ 32 ∧
      ((env_alloc c (env_alloc c (env_alloc c (env_init c boot) 0 p0).2 0 p1).2 0 p2).2.envs
        2).env_id = ((3 <<< (c.LOG2NENV + 1)) ||| 2) % 2 ^ 32) ∧
    (∀ (es : List Nat) (s : Nat),
      (mkenvid c (mkenvid_counter c 0 es) s).1
        = (((es.length + 1) <<< (c.LOG2NENV + 1)) ||| s) % 2 ^ 32) := by
  constructor
  · obtain ⟨rest, hl⟩ := env_init_free_list_three c boot h2
    have hb0 : (env_init c boot).asid_bitmap = store (fun _ => 0) 0 (0 ||| 1) := by
      rw [env_init_asid_bitmap]; rfl
    have ha0 : asid_alloc (env_init c boot).asid_bitmap
        = (.ok 1, (asid_alloc (store (fun _ => 0) 0 (0 ||| 1))).2) := by
      rw [hb0]; rfl
    have hi0 : (env_init c boot).mkenvid_i = 0 := by rw [env_init_mkenvid_i]; rfl
    obtain ⟨r0, l0, b0, i0, -, -, id0, -, -, -⟩ :=
      env_alloc_ok_fields c (env_init c boot) 0 p0 0 (1 :: 2 :: rest) 1 _ hl ha0
    have ha1 : asid_alloc (env_alloc c (env_init c boot) 0 p0).2.asid_bitmap
        = (.ok 2, (asid_alloc (asid_alloc (store (fun _ => 0) 0 (0 ||| 1))).2).2) := by
      rw [b0]; rfl
    obtain ⟨r1, l1, b1, i1, -, -, id1, -, -, o1⟩ :=
      env_alloc_ok_fields c (env_alloc c (env_init c boot) 0 p0).2 0 p1 1 (2 :: rest) 2 _ l0 ha1
    have ha2 : asid_alloc (env_alloc c (env_alloc c (env_init c boot) 0 p0).2 0 p1).2.asid_bitmap
        = (.ok 3, (asid_alloc (asid_alloc (asid_alloc
            (store (fun _ => 0) 0 (0 ||| 1))).2).2).2) := by
      rw [b1]; rfl
    obtain ⟨r2, -, -, -, -, -, id2, -, -, o2⟩ :=
      env_alloc_ok_fields c (env_alloc c (env_alloc c (env_init c boot) 0 p0).2 0 p1).2 0 p2 2
        rest 3 _ l1 ha2
    refine ⟨r0, r1, r2, ?_, ?_, ?_⟩
    · rw [o2 0 (by decide), o1 0 (by decide), id0, hi0, mkenvid_fst, Nat.add_comm 1 c.LOG2NENV]
    · rw [o2 1 (by decide), id1, i0, hi0, mkenvid_fst, Nat.add_comm 1 c.LOG2NENV]
      norm_num
    · rw [id2, i1, i0, hi0, mkenvid_fst, Nat.add_comm 1 c.LOG2NENV]
      norm_num
  · intro es s
    have hcnt := mkenvid_counter_succ c 0 es
    apply Nat.eq_of_testBit_eq
    intro j
    rw [mkenvid_fst]
    simp only [Nat.testBit_mod_two_pow, Nat.testBit_or, Nat.testBit_shiftLeft]
    by_cases hj : j < 32
    · have hlt : j - (1 + c.LOG2NENV) < 32 := by omega
      have hbit : (mkenvid_counter c 0 es + 1).testBit (j - (1 + c.LOG2NENV))
          = (es.length + 1).testBit (j - (1 + c.LOG2NENV)) := by
        have h1 := Nat.testBit_mod_two_pow (mkenvid_counter c 0 es + 1) 32
          (j - (1 + c.LOG2NENV))
        have h2 := Nat.testBit_mod_two_pow (0 + es.length + 1) 32 (j - (1 + c.LOG2NENV))
        rw [hcnt, h2] at h1
        simpa [hlt] using h1.symm
      rw [hbit, Nat.add_comm 1 c.LOG2NENV]
    · simp [hj]

/-- C5 with `LOG2NENV = 10`, the value the ids asserted by `env_check` imply: the ids are
2048, 4097 and 6146. -/
theorem env_alloc_three_ids_witness :
    2 ≤ consts10.LOG2NENV ∧
    (env_alloc consts10 (env_init consts10 boot) 0 0).1 = .ok 0 ∧
    (env_alloc consts10 (env_alloc consts10 (env_init consts10 boot) 0 0).2 0 0).1 = .ok 1 ∧
    (env_alloc consts10 (env_alloc consts10 (env_alloc consts10 (env_init consts10 boot)
      0 0).2 0 0).2 0 0).1 = .ok 2 ∧
    ((env_alloc consts10 (env_alloc consts10 (env_alloc consts10 (env_init consts10 boot)
      0 0).2 0 0).2 0 0).2.envs 0).env_id = 2048 ∧
    ((env_alloc consts10 (env_alloc consts10 (env_alloc consts10 (env_init consts10 boot)
      0 0).2 0 0).2 0 0).2.envs 1).env_id = 4097 ∧
    ((env_alloc consts10 (env_alloc consts10 (env_alloc consts10 (env_init consts10 boot)
      0 0).2 0 0).2 0 0).2.envs 2).env_id = 6146 :=
  ⟨by decide, (env_alloc_three_ids consts10 (by decide) 0 0 0).1⟩

/-- The ids of C5 with `LOG2NENV = 11`, as the spec quotes them: `(1<<12)|0`, `(2<<12)|1`
and `(3<<12)|2`. -/
theorem three_ids_log2nenv_11 :
    ((env_alloc consts11 (env_alloc consts11 (env_alloc consts11 (env_init consts11 boot)
      0 0).2 0 0).2 0 0).2.envs 0).env_id = 4096 ∧
    ((env_alloc consts11 (env_alloc consts11 (env_alloc consts11 (env_init consts11 boot)
      0 0).2 0 0).2 0 0).2.envs 1).env_id = 8193 ∧
    ((env_alloc consts11 (env_alloc consts11 (env_alloc consts11 (env_init consts11 boot)
      0 0).2 0 0).2 0 0).2.envs 2).env_id = 12290 :=
  ⟨rfl, rfl, rfl⟩

/-! ## C6: `mkenvid` is injective until its counter wraps -/

/-- C6: `mkenvid` is injective as long as its counter does not wrap. Take the calls number
`j` and number `k` of `mkenvid` since boot (`j - 1` and `k - 1` calls were made before them,
on the slots of `es1` and of `es2`), with `j ≠ k` and both counter values `j` and `k` below
`2 ^ (32 - (LOG2NENV+1))`, on slots with index below `NENV`, the same slot or not: the two
ids differ, and neither is 0. -/
theorem mkenvid_injective (c : Consts) (es1 es2 : List Nat) (s1 s2 : Nat)
    (hne : es1.length + 1 ≠ es2.length + 1)
    (h1 : es1.length + 1 < 2 ^ (32 - (c.LOG2NENV + 1)))
    (h2 : es2.length + 1 < 2 ^ (32 - (c.LOG2NENV + 1)))
    (hs1 : s1 < NENV c) (hs2 : s2 < NENV c) :
    (mkenvid c (mkenvid_counter c 0 es1) s1).1 ≠ (mkenvid c (mkenvid_counter c 0 es2) s2).1 ∧
    (mkenvid c (mkenvid_counter c 0 es1) s1).1 ≠ 0 ∧
    (mkenvid c (mkenvid_counter c 0 es2) s2).1 ≠ 0 := by
  have hle : 2 ^ (32 - (c.LOG2NENV + 1)) ≤ 2 ^ 32 := Nat.pow_le_pow_right (by norm_num) (by omega)
  have e1 : mkenvid_counter c 0 es1 = es1.length := by
    rw [mkenvid_counter_eq c 0 es1 (by omega)]; omega
  have e2 : mkenvid_counter c 0 es2 = es2.length := by
    rw [mkenvid_counter_eq c 0 es2 (by omega)]; omega
  rw [e1, e2]
  have hne2 : es1.length ≠ es2.length := fun h => hne (by rw [h])
  exact ⟨(mkenvid_ne c _ _ s1 s2 hne2 h1 h2 hs1 hs2).1,
    (mkenvid_ne c _ _ s1 s2 hne2 h1 h2 hs1 hs2).2,
    (mkenvid_ne c _ _ s2 s1 (Ne.symm hne2) h2 h1 hs2 hs1).2⟩

/-- C6 on the first call (for slot 0) and the third call (after calls for slots 0 and 5),
both for slot 0, with `LOG2NENV = 10`: the ids 2048 and 6144 differ. -/
theorem mkenvid_injective_witness :
    (([] : List Nat).length + 1 ≠ [0, 5].length + 1 ∧
      ([] : List Nat).length + 1 < 2 ^ (32 - (consts10.LOG2NENV + 1)) ∧
      [0, 5].length + 1 < 2 ^ (32 - (consts10.LOG2NENV + 1)) ∧
      0 < NENV consts10) ∧
    (mkenvid consts10 (mkenvid_counter consts10 0 []) 0).1
      ≠ (mkenvid consts10 (mkenvid_counter consts10 0 [0, 5]) 0).1 ∧
    (mkenvid consts10 (mkenvid_counter consts10 0 []) 0).1 ≠ 0 ∧
    (mkenvid consts10 (mkenvid_counter consts10 0 [0, 5]) 0).1 ≠ 0 :=
  ⟨⟨by decide, by decide, by decide, by decide⟩,
    mkenvid_injective consts10 [] [0, 5] 0 0 (by decide) (by decide) (by decide) (by decide)
      (by decide)⟩

/-! ## C7: live slots have distinct, allocated ASIDs -/

/-- C7: in every state reachable from `env_init` by `env_alloc`, `env_create` and `env_free`
of live slots, any two distinct live slots have different `env_asid` values, and the bit of
the ASID bitmap for the `env_asid` of every live slot is set. -/
theorem live_asid_distinct (c : Consts) (s : Kernel) (live : List Nat)
    (h : Reachable c s live) :
    (∀ e1 e2, e1 ∈ live → e2 ∈ live → e1 ≠ e2 →
      (s.envs e1).env_asid ≠ (s.envs e2).env_asid) ∧
    (∀ e, e ∈ live → asid_bit s.asid_bitmap (s.envs e).env_asid = true) :=
  ⟨(Reachable_inv c s live h).asid_inj, (Reachable_inv c s live h).asid_set⟩

/-- C7 on `sample_two`, whose live slots 1 and 0 hold ASIDs 2 and 1. -/
theorem live_asid_distinct_witness :
    Reachable consts10 sample_two [1, 0] ∧
    (sample_two.envs 0).env_asid = 1 ∧ (sample_two.envs 1).env_asid = 2 ∧
    (∀ e1 e2, e1 ∈ [1, 0] → e2 ∈ [1, 0] → e1 ≠ e2 →
      (sample_two.envs e1).env_asid ≠ (sample_two.envs e2).env_asid) ∧
    (∀ e, e ∈ [1, 0] → asid_bit sample_two.asid_bitmap (sample_two.envs e).env_asid = true) :=
  ⟨sample_two_reachable, rfl, rfl, live_asid_distinct consts10 sample_two [1, 0]
    sample_two_reachable⟩

/-! ## C8: the free list and the status `ENV_FREE` -/

/-- C8, the claim as stated fails: the state after boot, `env_init` and a successful
`env_alloc(0)` is reachable, slot 0 is the slot that call returned and is no longer on the
free list, and its status is still `ENV_FREE`. -/
theorem free_list_iff_counterexample :
    Reachable consts10 sample_allocated [0] ∧
    (env_alloc consts10 (env_init consts10 boot) 0 0x81000000).1 = .ok 0 ∧
    (sample_allocated.envs 0).env_status = .ENV_FREE ∧
    0 ∉ sample_allocated.env_free_list ∧
    ¬ (0 ∈ sample_allocated.env_free_list ↔
      (sample_allocated.envs 0).env_status = .ENV_FREE) :=
  ⟨sample_allocated_reachable, rfl, rfl, by decide, by decide⟩

/-- C8, amended: in every state reachable from `env_init` by `env_alloc`, `env_create` and
`env_free` of live slots, every slot on the free list has status `ENV_FREE` (so a slot whose
status is not `ENV_FREE` is not on the free list), a slot is on the free list if and only
if it is not live, and no slot is on the free list twice. -/
theorem free_list_status (c : Consts) (s : Kernel) (live : List Nat)
    (h : Reachable c s live) :
    (∀ e, e < NENV c →
      (e ∈ s.env_free_list → (s.envs e).env_status = .ENV_FREE) ∧
      ((s.envs e).env_status ≠ .ENV_FREE → e ∉ s.env_free_list) ∧
      (e ∈ s.env_free_list ↔ e ∉ live)) ∧
    s.env_free_list.Nodup := by
  have hinv := Reachable_inv c s live h
  refine ⟨fun e he => ⟨hinv.free_status e, ?_, hinv.free_iff e he⟩, hinv.free_nodup⟩
  intro hst hmem
  exact hst (hinv.free_status e hmem)

/-- C8 amended, on `sample_created`: slot 0 is runnable and off the free list. -/
theorem free_list_status_witness :
    Reachable consts10 sample_created [0] ∧
    (∀ e, e < NENV consts10 →
      (e ∈ sample_created.env_free_list → (sample_created.envs e).env_status = .ENV_FREE) ∧
      ((sample_created.envs e).env_status ≠ .ENV_FREE → e ∉ sample_created.env_free_list) ∧
      (e ∈ sample_created.env_free_list ↔ e ∉ [0])) ∧
    sample_created.env_free_list.Nodup :=
  ⟨sample_created_reachable, free_list_status consts10 sample_created [0]
    sample_created_reachable⟩

/-! ## C9: the runnable queue and the status `ENV_RUNNABLE` -/

/-- C9, the code breaks the invariant that the comment above `env_sched_list` states: the
state `sample_dropped` is reached from `env_init` by `env_create` (slot 0), `env_create`
(slot 1), `env_free` of slot 1, `env_alloc` (slot 1 again), `env_create` (slot 2) and
`env_free` of the live slot 1, with no fault. Before the last call the runnable queue is
slot 2 then slot 0, and slot 1, which is not on it, still has the link fields it had as
head of the queue in front of slot 0. The `TAILQ_REMOVE` of the last call follows them and
stores slot 0 in `tqh_first`: afterwards the queue is slot 0 alone, and slot 2 has status
`ENV_RUNNABLE` without being on the queue. -/
theorem sched_list_runnable_dropped :
    Reachable consts10 sample_stale_created [2, 1, 0] ∧
    sample_stale_created.env_sched_list = [2, 0] ∧
    tailq_walk sample_stale_created.env_sched_link (NENV consts10)
      sample_stale_created.tqh_first = [2, 0] ∧
    (sample_stale_created.envs 1).env_status = .ENV_FREE ∧
    sample_stale_created.env_sched_link 1
      = { tqe_next := some 0, tqe_prev := .head_first } ∧
    Reachable consts10 sample_dropped [2, 0] ∧
    sample_dropped.fault = false ∧
    sample_dropped.tqh_first = some 0 ∧
    (sample_dropped.env_sched_link 0).tqe_next = none ∧
    sample_dropped.env_sched_list = [0] ∧
    (sample_dropped.envs 2).env_status = .ENV_RUNNABLE ∧
    2 < NENV consts10 ∧
    2 ∉ sample_dropped.env_sched_list :=
  ⟨sample_stale_created_reachable, rfl, rfl, rfl, rfl,
    Reachable.free 1 0 sample_stale_created_reachable (by decide), rfl, rfl, rfl, rfl, rfl,
    by decide, by decide⟩

/-! ## C10: `env_alloc` followed by `env_free` -/

/-- C10, the claim as stated fails: in `sample_freed` slot 0 has been created and freed, so
it is the head of the free list, it has been on the runnable queue, and its `env_id` is
2048. A successful `env_alloc(0)` returns slot 0, and `env_free` of it completes without a
fault (even with `destroy_pgdir` leaving in `env_pgdir` the value it had), on an empty queue
that stays empty; but slot 0 of `envs` is not what it was before the pair: its `env_id` is
4096 instead of 2048. -/
theorem env_alloc_env_free_counterexample :
    sample_freed.fault = false ∧
    sample_freed.tqh_first = none ∧
    sample_freed.env_sched_list = [] ∧
    (env_alloc consts10 sample_freed 0 0x81000000).1 = .ok 0 ∧
    (env_free consts10 (env_alloc consts10 sample_freed 0 0x81000000).2 0 0).fault = false ∧
    (env_free consts10 (env_alloc consts10 sample_freed 0 0x81000000).2 0 0).tqh_first
      = none ∧
    (env_free consts10 (env_alloc consts10 sample_freed 0 0x81000000).2 0 0).env_sched_list
      = [] ∧
    (sample_freed.envs 0).env_id = 2048 ∧
    ((env_free consts10 (env_alloc consts10 sample_freed 0 0x81000000).2 0 0).envs
      0).env_id = 4096 ∧
    (sample_freed.envs 0).env_pgdir = 0 ∧
    (env_free consts10 (env_alloc consts10 sample_freed 0 0x81000000).2 0 0).envs 0
      ≠ sample_freed.envs 0 :=
  ⟨rfl, rfl, rfl, rfl, rfl, rfl, rfl, rfl, rfl, rfl, by decide⟩

/-- C10, amended: in every state that has not faulted, with a free ASID and a non-empty free
list whose head has been on the runnable queue before (the `tqe_prev` of its link is not
`NULL`), `env_alloc` succeeds on that head `e`, `env_free` of `e` completes without a fault,
and afterwards: the free list is the one before the pair; every bit of the ASID bitmap is as
before, and the bitmap is the same word for word when its words are 32-bit values;
`curenv` is unchanged; the fields of every slot other than `e` (the queue link aside) are
unchanged; slot `e` has status `ENV_FREE` and its old priority. The other fields of slot
`e` and the counter of `mkenvid` are not restored, and nothing is said of the runnable
queue. -/
theorem env_alloc_env_free (c : Consts) (s : Kernel) (parent_id pgdir pgdir2 : Nat)
    (e : Nat) (rest : List Nat) (hfree : s.env_free_list = e :: rest)
    (hasid : ∃ j, j < NASID ∧ asid_bit s.asid_bitmap j = false)
    (hfault : s.fault = false)
    (hlink : (s.env_sched_link e).tqe_prev ≠ .null) :
    ∃ s1, env_alloc c s parent_id pgdir = (.ok e, s1) ∧
      (env_free c s1 e pgdir2).fault = false ∧
      (env_free c s1 e pgdir2).env_free_list = s.env_free_list ∧
      (∀ j, asid_bit (env_free c s1 e pgdir2).asid_bitmap j = asid_bit s.asid_bitmap j) ∧
      ((∀ k, s.asid_bitmap k < 2 ^ 32) →
        (env_free c s1 e pgdir2).asid_bitmap = s.asid_bitmap) ∧
      (env_free c s1 e pgdir2).curenv = s.curenv ∧
      (∀ x, x ≠ e → (env_free c s1 e pgdir2).envs x = s.envs x) ∧
      ((env_free c s1 e pgdir2).envs e).env_status = .ENV_FREE ∧
      ((env_free c s1 e pgdir2).envs e).env_pri = (s.envs e).env_pri := by
  classical
  have hmin := Nat.find_spec hasid
  have hrun : asid_alloc s.asid_bitmap = (.ok (Nat.find hasid),
      store s.asid_bitmap (Nat.find hasid >>> 5)
        (s.asid_bitmap (Nat.find hasid >>> 5) ||| (1 <<< (Nat.find hasid &&& 31)))) := by
    refine asid_alloc_loop_first s.asid_bitmap NASID 0 (Nat.find hasid) (Nat.zero_le _)
      (by simpa using hmin.1) hmin.2 ?_
    intro j _ hj
    have hn := Nat.find_min hasid hj
    cases hb : asid_bit s.asid_bitmap j with
    | true => rfl
    | false => exact absurd ⟨lt_trans hj hmin.1, hb⟩ hn
  have hok := env_alloc_ok c s parent_id pgdir e rest _ _ hfree hrun
  refine ⟨_, hok, ?_, ?_, ?_, ?_, ?_, ?_, ?_, ?_⟩
  · rw [env_free_fault]
    simp [hfault, hlink]
  · rw [env_free_env_free_list, hfree]
  · intro j
    rw [env_free_eq]
    simp only [TAILQ_REMOVE_asid_bitmap, store_same]
    exact asid_bit_free_set s.asid_bitmap (Nat.find hasid) j hmin.2
  · intro hw
    rw [env_free_eq]
    simp only [TAILQ_REMOVE_asid_bitmap, store_same]
    exact asid_free_set s.asid_bitmap (Nat.find hasid) hmin.2 hw
  · rw [env_free_eq]; simp
  · intro x hx
    rw [env_free_eq]
    simp [store_other _ _ _ _ hx]
  · rw [env_free_eq]
    simp [store_same]
  · rw [env_free_eq]
    simp [store_same]

/-- C10 amended, on `sample_freed`, where slot 0 is the head of the free list and has been
on the runnable queue, and ASID 1 is free. -/
theorem env_alloc_env_free_witness :
    (sample_freed.env_free_list = 0 :: List.range' 1 1023 ∧
      (∃ j, j < NASID ∧ asid_bit sample_freed.asid_bitmap j = false) ∧
      sample_freed.fault = false ∧
      (sample_freed.env_sched_link 0).tqe_prev ≠ .null) ∧
    ∃ s1, env_alloc consts10 sample_freed 0 0x81000000 = (.ok 0, s1) ∧
      (env_free consts10 s1 0 0).fault = false ∧
      (env_free consts10 s1 0 0).env_free_list = sample_freed.env_free_list ∧
      (∀ j, asid_bit (env_free consts10 s1 0 0).asid_bitmap j
        = asid_bit sample_freed.asid_bitmap j) ∧
      ((∀ k, sample_freed.asid_bitmap k < 2 ^ 32) →
        (env_free consts10 s1 0 0).asid_bitmap = sample_freed.asid_bitmap) ∧
      (env_free consts10 s1 0 0).curenv = sample_freed.curenv ∧
      (∀ x, x ≠ 0 → (env_free consts10 s1 0 0).envs x = sample_freed.envs x) ∧
      ((env_free consts10 s1 0 0).envs 0).env_status = .ENV_FREE ∧
      ((env_free consts10 s1 0 0).envs 0).env_pri = (sample_freed.envs 0).env_pri :=
  ⟨⟨rfl, ⟨1, by decide, by decide⟩, rfl, by decide⟩,
    env_alloc_env_free consts10 sample_freed 0 0x81000000 0 0 (List.range' 1 1023) rfl
      ⟨1, by decide, by decide⟩ rfl (by decide)⟩

/-! ## C11: two `env_alloc` calls, then two `env_free` calls in reverse order -/

/-- With a clear bit below `NASID`, `asid_alloc` succeeds on the lowest one. -/
theorem asid_alloc_ok_of_clear (bm : Nat → Nat)
    (h : ∃ j, j < NASID ∧ asid_bit bm j = false) :
    ∃ a, a < NASID ∧ asid_bit bm a = false ∧ (∀ j, j < a → asid_bit bm j = true) ∧
      asid_alloc bm = (.ok a, store bm (a >>> 5) (bm (a >>> 5) ||| (1 <<< (a &&& 31)))) := by
  classical
  have hmin := Nat.find_spec h
  have hlow : ∀ j, j < Nat.find h → asid_bit bm j = true := by
    intro j hj
    have hn := Nat.find_min h hj
    cases hb : asid_bit bm j with
    | true => rfl
    | false => exact absurd ⟨lt_trans hj hmin.1, hb⟩ hn
  exact ⟨Nat.find h, hmin.1, hmin.2, hlow,
    asid_alloc_loop_first bm NASID 0 (Nat.find h) (Nat.zero_le _) (by simpa using hmin.1)
      hmin.2 (fun j _ hj => hlow j hj)⟩

/-- C11, the claim as stated fails: after boot and `env_init` the free list starts with
slots 0 and 1 and ASIDs 1 and 2 are free; `env_alloc` gives slot 0, a second `env_alloc`
gives slot 1, and neither has ever been on the runnable queue, so the `tqe_prev` of slot 1
is `NULL`: the `TAILQ_REMOVE` at the end of `env_free` of slot 1 stores through `NULL`, and
the four calls do not complete. -/
theorem env_alloc_twice_free_twice_counterexample :
    (env_init consts10 boot).fault = false ∧
    (env_alloc consts10 (env_init consts10 boot) 0 0x81000000).1 = .ok 0 ∧
    (env_alloc consts10 (env_alloc consts10 (env_init consts10 boot) 0 0x81000000).2
      0 0x81002000).1 = .ok 1 ∧
    (env_alloc consts10 (env_alloc consts10 (env_init consts10 boot) 0 0x81000000).2
      0 0x81002000).2.fault = false ∧
    ((env_alloc consts10 (env_alloc consts10 (env_init consts10 boot) 0 0x81000000).2
      0 0x81002000).2.env_sched_link 1).tqe_prev = .null ∧
    (env_free consts10
      (env_alloc consts10 (env_alloc consts10 (env_init consts10 boot) 0 0x81000000).2
        0 0x81002000).2 1 0).fault = true :=
  ⟨rfl, rfl, rfl, rfl, rfl, rfl⟩

/-- C11, amended: in every state that has not faulted, whose free list has at least two
slots and whose ASID bitmap has at least two clear bits, `env_alloc` succeeds giving `a`
(the head of the free list) and a second `env_alloc` succeeds giving `b` (the slot after
it). If both slots have been on the runnable queue before (the `tqe_prev` of their links is
not `NULL`), then `env_free(b)` and `env_free(a)` complete without a fault and the free list
afterwards is the list before the four calls: the same slots in the same order. The same
holds when the two slots are first put on the runnable queue with `TAILQ_INSERT_TAIL`, as
`env_check` does before it frees its slots, on a queue head that has been set up
(`tqh_last` is not `NULL`). -/
theorem env_alloc_twice_free_twice (c : Consts) (s : Kernel) (p1 p2 pg1 pg2 pg3 pg4 : Nat)
    (hlen : 2 ≤ s.env_free_list.length)
    (hbits : ∃ j1 j2, j1 ≠ j2 ∧ j1 < NASID ∧ j2 < NASID ∧
      asid_bit s.asid_bitmap j1 = false ∧ asid_bit s.asid_bitmap j2 = false)
    (hfault : s.fault = false) :
    ∃ a s1 b s2 rest, s.env_free_list = a :: b :: rest ∧
      env_alloc c s p1 pg1 = (.ok a, s1) ∧ env_alloc c s1 p2 pg2 = (.ok b, s2) ∧
      s2.env_free_list = rest ∧
      ((s.env_sched_link a).tqe_prev ≠ .null → (s.env_sched_link b).tqe_prev ≠ .null →
        (env_free c s2 b pg3).fault = false ∧
        (env_free c (env_free c s2 b pg3) a pg4).fault = false ∧
        (env_free c (env_free c s2 b pg3) a pg4).env_free_list = s.env_free_list) ∧
      (s.tqh_last ≠ .null →
        (TAILQ_INSERT_TAIL (TAILQ_INSERT_TAIL s2 a) b).fault = false ∧
        (env_free c (TAILQ_INSERT_TAIL (TAILQ_INSERT_TAIL s2 a) b) b pg3).fault = false ∧
        (env_free c (env_free c (TAILQ_INSERT_TAIL (TAILQ_INSERT_TAIL s2 a) b) b pg3)
          a pg4).fault = false ∧
        (env_free c (env_free c (TAILQ_INSERT_TAIL (TAILQ_INSERT_TAIL s2 a) b) b pg3)
          a pg4).env_free_list = s.env_free_list) := by
  obtain ⟨j1, j2, hne, h1, h2, hc1, hc2⟩ := hbits
  obtain ⟨a, b, rest, hl⟩ : ∃ a b rest, s.env_free_list = a :: b :: rest := by
    match hs : s.env_free_list, hlen with
    | a :: b :: rest, _ => exact ⟨a, b, rest, rfl⟩
  obtain ⟨i1, -, hi1c, -, hrun1⟩ := asid_alloc_ok_of_clear s.asid_bitmap ⟨j1, h1, hc1⟩
  obtain ⟨r1, l1, b1, -, -, -, -, -, -, -⟩ :=
    env_alloc_ok_fields c s p1 pg1 a (b :: rest) i1 _ hl hrun1
  -- a second clear bit is left
  have hleft : ∃ j, j < NASID ∧ asid_bit (env_alloc c s p1 pg1).2.asid_bitmap j = false := by
    rw [b1]
    by_cases hj : j1 = i1
    · refine ⟨j2, h2, ?_⟩
      rw [asid_bit_set, hc2]
      have : j2 ≠ i1 := fun hh => hne (hj.trans hh.symm)
      simp [this]
    · refine ⟨j1, h1, ?_⟩
      rw [asid_bit_set, hc1]
      simp [hj]
  obtain ⟨i2, -, -, -, hrun2⟩ := asid_alloc_ok_of_clear _ hleft
  obtain ⟨r2, l2, -, -, -, -, -, -, -, -⟩ :=
    env_alloc_ok_fields c (env_alloc c s p1 pg1).2 p2 pg2 b rest i2 _ l1 hrun2
  obtain ⟨-, -, q1last, q1link, q1fault⟩ := env_alloc_queue c s p1 pg1
  obtain ⟨-, -, q2last, q2link, q2fault⟩ := env_alloc_queue c (env_alloc c s p1 pg1).2 p2 pg2
  have hlink : (env_alloc c (env_alloc c s p1 pg1).2 p2 pg2).2.env_sched_link
      = s.env_sched_link := q2link.trans q1link
  have hlast : (env_alloc c (env_alloc c s p1 pg1).2 p2 pg2).2.tqh_last = s.tqh_last :=
    q2last.trans q1last
  have hflt : (env_alloc c (env_alloc c s p1 pg1).2 p2 pg2).2.fault = false :=
    (q2fault.trans q1fault).trans hfault
  -- two frees of slots whose `tqe_prev` is not `NULL`, from a state `q` with the free list
  -- of the state after the two allocations
  have frees : ∀ q : Kernel, q.fault = false → q.env_free_list = rest →
      (q.env_sched_link a).tqe_prev ≠ .null → (q.env_sched_link b).tqe_prev ≠ .null →
      (env_free c q b pg3).fault = false ∧
      (env_free c (env_free c q b pg3) a pg4).fault = false ∧
      (env_free c (env_free c q b pg3) a pg4).env_free_list = s.env_free_list := by
    intro q hqf hql hqa hqb
    have hfb : (env_free c q b pg3).fault = false := by
      rw [env_free_fault]; simp [hqf, hqb]
    have hqa2 := env_free_tqe_prev_ne_null c q b pg3 a hqb hqa
    refine ⟨hfb, ?_, ?_⟩
    · rw [env_free_fault]; simp [hfb, hqa2]
    · rw [env_free_env_free_list, env_free_env_free_list, hql, hl]
  refine ⟨a, (env_alloc c s p1 pg1).2, b, (env_alloc c (env_alloc c s p1 pg1).2 p2 pg2).2,
    rest, hl, Prod.ext r1 rfl, Prod.ext r2 rfl, l2, ?_, ?_⟩
  · intro ha hb
    exact frees _ hflt l2 (by rw [hlink]; exact ha) (by rw [hlink]; exact hb)
  · intro hlast0
    have hlast2 : (env_alloc c (env_alloc c s p1 pg1).2 p2 pg2).2.tqh_last ≠ .null := by
      rw [hlast]; exact hlast0
    obtain ⟨-, -, t1free, -, -, t1fault⟩ :=
      TAILQ_INSERT_TAIL_frame (env_alloc c (env_alloc c s p1 pg1).2 p2 pg2).2 a
    obtain ⟨t1last, t1link⟩ :=
      TAILQ_INSERT_TAIL_links (env_alloc c (env_alloc c s p1 pg1).2 p2 pg2).2 a hlast2
    have hlast3 : (TAILQ_INSERT_TAIL
        (env_alloc c (env_alloc c s p1 pg1).2 p2 pg2).2 a).tqh_last ≠ .null := by
      rw [t1last]; exact fun hh => LinkRef.noConfusion hh
    obtain ⟨-, -, t2free, -, -, t2fault⟩ :=
      TAILQ_INSERT_TAIL_frame
        (TAILQ_INSERT_TAIL (env_alloc c (env_alloc c s p1 pg1).2 p2 pg2).2 a) b
    obtain ⟨-, t2link⟩ :=
      TAILQ_INSERT_TAIL_links
        (TAILQ_INSERT_TAIL (env_alloc c (env_alloc c s p1 pg1).2 p2 pg2).2 a) b hlast3
    have hf1 : (TAILQ_INSERT_TAIL
        (env_alloc c (env_alloc c s p1 pg1).2 p2 pg2).2 a).fault = false := by
      rw [t1fault]; simp [hflt, hlast2]
    have hf2 : (TAILQ_INSERT_TAIL (TAILQ_INSERT_TAIL
        (env_alloc c (env_alloc c s p1 pg1).2 p2 pg2).2 a) b).fault = false := by
      rw [t2fault]; simp [hf1, hlast3]
    exact ⟨hf2, frees _ hf2 (by rw [t2free, t1free, l2])
      (t2link a (Or.inr (t1link a (Or.inl rfl)))) (t2link b (Or.inl rfl))⟩

/-- C11 amended, on `sample_recycled`: slots 0 and 1 are the first two slots of the free
list, both have been on the runnable queue, and ASIDs 1 and 2 are free. -/
theorem env_alloc_twice_free_twice_witness :
    (2 ≤ sample_recycled.env_free_list.length ∧
      (∃ j1 j2, j1 ≠ j2 ∧ j1 < NASID ∧ j2 < NASID ∧
        asid_bit sample_recycled.asid_bitmap j1 = false ∧
        asid_bit sample_recycled.asid_bitmap j2 = false) ∧
      sample_recycled.fault = false ∧
      (sample_recycled.env_sched_link 0).tqe_prev ≠ .null ∧
      (sample_recycled.env_sched_link 1).tqe_prev ≠ .null ∧
      sample_recycled.tqh_last ≠ .null) ∧
    ∃ a s1 b s2 rest, sample_recycled.env_free_list = a :: b :: rest ∧
      env_alloc consts10 sample_recycled 0 0x81000000 = (.ok a, s1) ∧
      env_alloc consts10 s1 0 0x81002000 = (.ok b, s2) ∧
      s2.env_free_list = rest ∧
      ((sample_recycled.env_sched_link a).tqe_prev ≠ .null →
        (sample_recycled.env_sched_link b).tqe_prev ≠ .null →
        (env_free consts10 s2 b 0).fault = false ∧
        (env_free consts10 (env_free consts10 s2 b 0) a 0).fault = false ∧
        (env_free consts10 (env_free consts10 s2 b 0) a 0).env_free_list
          = sample_recycled.env_free_list) ∧
      (sample_recycled.tqh_last ≠ .null →
        (TAILQ_INSERT_TAIL (TAILQ_INSERT_TAIL s2 a) b).fault = false ∧
        (env_free consts10 (TAILQ_INSERT_TAIL (TAILQ_INSERT_TAIL s2 a) b) b 0).fault
          = false ∧
        (env_free consts10
          (env_free consts10 (TAILQ_INSERT_TAIL (TAILQ_INSERT_TAIL s2 a) b) b 0)
          a 0).fault = false ∧
        (env_free consts10
          (env_free consts10 (TAILQ_INSERT_TAIL (TAILQ_INSERT_TAIL s2 a) b) b 0)
          a 0).env_free_list = sample_recycled.env_free_list) :=
  ⟨⟨by decide, ⟨1, 2, by decide, by decide, by decide, by decide, by decide⟩, rfl,
      by decide, by decide, by decide⟩,
    env_alloc_twice_free_twice consts10 sample_recycled 0 0 0x81000000 0x81002000 0 0
      (by decide) ⟨1, 2, by decide, by decide, by decide, by decide, by decide⟩ rfl⟩

/-! ## C12: the fields `env_alloc` sets in the slot it returns -/

/-- C12, the claim as stated fails: in `sample_freed` slot 0 has been used by a process and
freed; the next `env_alloc(5)` returns slot 0 again, with `parent_id`, `runs` and
`user_tlb_mod_entry` as claimed, but with the `sepc` of the old process (0x400000) still in
its trap frame: `env_alloc` does not zero the trap frame. -/
theorem env_alloc_trap_frame_counterexample :
    (env_alloc consts10 sample_freed 5 0x81000000).1 = .ok 0 ∧
    ((env_alloc consts10 sample_freed 5 0x81000000).2.envs 0).env_parent_id = 5 ∧
    ((env_alloc consts10 sample_freed 5 0x81000000).2.envs 0).env_runs = 0 ∧
    ((env_alloc consts10 sample_freed 5 0x81000000).2.envs 0).env_user_tlb_mod_entry = 0 ∧
    ((env_alloc consts10 sample_freed 5 0x81000000).2.envs 0).env_tf.sepc = 0x400000 ∧
    ((env_alloc consts10 sample_freed 5 0x81000000).2.envs 0).env_tf.sepc ≠ 0 :=
  ⟨rfl, rfl, rfl, rfl, rfl, by decide⟩

/-- C12, amended: after every successful `env_alloc(parent_id)`, whatever the slot held
before, the returned slot has `parent_id` as given, `runs = 0`, `user_tlb_mod_entry = 0`,
and in its trap frame `sscratch` (where this kernel keeps the user stack pointer) is
`USTACKTOP - sizeof(int) - sizeof(char **)` in 64-bit arithmetic, `sstatus` is the constant
`SSTATUS_UIE` and `sie` is the constant `SIE_UTIE`; the other fields of the trap frame (the
general registers, `sepc`, `stvec`) are not zeroed: they keep the values the slot had. -/
theorem env_alloc_slot_fields (c : Consts) (s s1 : Kernel) (parent_id pgdir e : Nat)
    (h : env_alloc c s parent_id pgdir = (.ok e, s1)) :
    (s1.envs e).env_parent_id = parent_id ∧
    (s1.envs e).env_runs = 0 ∧
    (s1.envs e).env_user_tlb_mod_entry = 0 ∧
    (s1.envs e).env_tf.sscratch = (c.USTACKTOP + 2 ^ 64 - 4 - 8) % 2 ^ 64 ∧
    (12 ≤ c.USTACKTOP → c.USTACKTOP < 2 ^ 64 →
      (s1.envs e).env_tf.sscratch = c.USTACKTOP - 4 - 8) ∧
    (s1.envs e).env_tf.sstatus = c.SSTATUS_UIE ∧
    (s1.envs e).env_tf.sie = c.SIE_UTIE ∧
    (s1.envs e).env_tf.regs = (s.envs e).env_tf.regs ∧
    (s1.envs e).env_tf.sepc = (s.envs e).env_tf.sepc ∧
    (s1.envs e).env_tf.stvec = (s.envs e).env_tf.stvec := by
  obtain ⟨rest, a, bm1, hl, ha⟩ := env_alloc_ok_inv c s s1 parent_id pgdir e h
  rw [env_alloc_ok c s parent_id pgdir e rest a bm1 hl ha] at h
  simp only [Prod.mk.injEq, true_and] at h
  subst h
  refine ⟨?_, ?_, ?_, ?_, ?_, ?_, ?_, ?_, ?_, ?_⟩
  all_goals first
    | (simp only [store_same]; done)
    | (intro h12 h64; simp only [store_same]; omega)

/-- C12 amended, on the reused slot 0 of `sample_freed`. -/
theorem env_alloc_slot_fields_witness :
    env_alloc consts10 sample_freed 5 0x81000000
      = (.ok 0, (env_alloc consts10 sample_freed 5 0x81000000).2) ∧
    ((env_alloc consts10 sample_freed 5 0x81000000).2.envs 0).env_parent_id = 5 ∧
    ((env_alloc consts10 sample_freed 5 0x81000000).2.envs 0).env_runs = 0 ∧
    ((env_alloc consts10 sample_freed 5 0x81000000).2.envs 0).env_user_tlb_mod_entry = 0 ∧
    ((env_alloc consts10 sample_freed 5 0x81000000).2.envs 0).env_tf.sscratch
      = (consts10.USTACKTOP + 2 ^ 64 - 4 - 8) % 2 ^ 64 ∧
    (12 ≤ consts10.USTACKTOP → consts10.USTACKTOP < 2 ^ 64 →
      ((env_alloc consts10 sample_freed 5 0x81000000).2.envs 0).env_tf.sscratch
        = consts10.USTACKTOP - 4 - 8) ∧
    ((env_alloc consts10 sample_freed 5 0x81000000).2.envs 0).env_tf.sstatus
      = consts10.SSTATUS_UIE ∧
    ((env_alloc consts10 sample_freed 5 0x81000000).2.envs 0).env_tf.sie
      = consts10.SIE_UTIE ∧
    ((env_alloc consts10 sample_freed 5 0x81000000).2.envs 0).env_tf.regs
      = (sample_freed.envs 0).env_tf.regs ∧
    ((env_alloc consts10 sample_freed 5 0x81000000).2.envs 0).env_tf.sepc
      = (sample_freed.envs 0).env_tf.sepc ∧
    ((env_alloc consts10 sample_freed 5 0x81000000).2.envs 0).env_tf.stvec
      = (sample_freed.envs 0).env_tf.stvec :=
  ⟨rfl, env_alloc_slot_fields consts10 sample_freed
    (env_alloc consts10 sample_freed 5 0x81000000).2 5 0x81000000 0 rfl⟩

/-! ## C13: `env_alloc` when no ASID is free -/

/-- C13: in every state with a non-empty free list whose ASID bitmap is full (all 64 bits
set), `env_alloc` returns `-E_NO_FREE_ENV` without storing through `new`, and the free list
(the candidate slot is still its head), the runnable queue and the ASID bitmap after the
call are those before it (the queue as a list of slots, and pointer by pointer: `tqh_first`,
`tqh_last` and the link fields of every slot). -/
theorem env_alloc_asid_full (c : Consts) (s : Kernel) (parent_id pgdir : Nat)
    (hfree : s.env_free_list ≠ [])
    (hfull : ∀ j, j < NASID → asid_bit s.asid_bitmap j = true) :
    (env_alloc c s parent_id pgdir).1 = .error .E_NO_FREE_ENV ∧
    (env_alloc c s parent_id pgdir).2.env_free_list = s.env_free_list ∧
    (env_alloc c s parent_id pgdir).2.env_free_list.head? = s.env_free_list.head? ∧
    (env_alloc c s parent_id pgdir).2.env_sched_list = s.env_sched_list ∧
    (env_alloc c s parent_id pgdir).2.asid_bitmap = s.asid_bitmap ∧
    (env_alloc c s parent_id pgdir).2.curenv = s.curenv ∧
    (env_alloc c s parent_id pgdir).2.tqh_first = s.tqh_first ∧
    (env_alloc c s parent_id pgdir).2.tqh_last = s.tqh_last ∧
    (env_alloc c s parent_id pgdir).2.env_sched_link = s.env_sched_link := by
  obtain ⟨e, rest, hl⟩ := List.exists_cons_of_ne_nil hfree
  have ha : asid_alloc s.asid_bitmap = (.error .E_NO_FREE_ENV, s.asid_bitmap) :=
    asid_alloc_loop_full s.asid_bitmap NASID 0 (fun j _ hj => hfull j (by simpa using hj))
  rw [env_alloc_no_asid c s parent_id pgdir e rest _ _ hl ha]
  exact ⟨rfl, rfl, rfl, rfl, rfl, rfl, rfl, rfl, rfl⟩

/-- C13 on `sample_asid_full`: every slot is free and no ASID is. -/
theorem env_alloc_asid_full_witness :
    (sample_asid_full.env_free_list ≠ [] ∧
      ∀ j, j < NASID → asid_bit sample_asid_full.asid_bitmap j = true) ∧
    (env_alloc consts10 sample_asid_full 0 0x81000000).1 = .error .E_NO_FREE_ENV ∧
    (env_alloc consts10 sample_asid_full 0 0x81000000).2.env_free_list
      = sample_asid_full.env_free_list ∧
    (env_alloc consts10 sample_asid_full 0 0x81000000).2.env_free_list.head?
      = sample_asid_full.env_free_list.head? ∧
    (env_alloc consts10 sample_asid_full 0 0x81000000).2.env_sched_list
      = sample_asid_full.env_sched_list ∧
    (env_alloc consts10 sample_asid_full 0 0x81000000).2.asid_bitmap
      = sample_asid_full.asid_bitmap ∧
    (env_alloc consts10 sample_asid_full 0 0x81000000).2.curenv = sample_asid_full.curenv ∧
    (env_alloc consts10 sample_asid_full 0 0x81000000).2.tqh_first
      = sample_asid_full.tqh_first ∧
    (env_alloc consts10 sample_asid_full 0 0x81000000).2.tqh_last
      = sample_asid_full.tqh_last ∧
    (env_alloc consts10 sample_asid_full 0 0x81000000).2.env_sched_link
      = sample_asid_full.env_sched_link :=
  ⟨⟨by decide, by decide⟩,
    env_alloc_asid_full consts10 sample_asid_full 0 0x81000000 (by decide) (by decide)⟩

/-! ## C14: ASID 0 stays reserved -/

/-- In every reachable state bit 0 of the ASID bitmap is set and no live slot holds ASID 0. -/
theorem Reachable_asid_zero (c : Consts) (s : Kernel) (live : List Nat)
    (h : Reachable c s live) :
    asid_bit s.asid_bitmap 0 = true ∧ ∀ e, e ∈ live → (s.envs e).env_asid ≠ 0 := by
  have step_ok : ∀ (s s1 : Kernel) (live : List Nat) (parent_id pgdir e : Nat),
      TableInv c s live →
      (asid_bit s.asid_bitmap 0 = true ∧ ∀ x, x ∈ live → (s.envs x).env_asid ≠ 0) →
      env_alloc c s parent_id pgdir = (.ok e, s1) →
      asid_bit s1.asid_bitmap 0 = true ∧ ∀ x, x ∈ e :: live → (s1.envs x).env_asid ≠ 0 := by
    intro s s1 live parent_id pgdir e hinv ih hstep
    obtain ⟨rest, a, bm1, hl, ha⟩ := env_alloc_ok_inv c s s1 parent_id pgdir e hstep
    obtain ⟨-, -, f2, -, -, -, -, f6, -, f8⟩ :=
      env_alloc_ok_fields c s parent_id pgdir e rest a bm1 hl ha
    rw [hstep] at f2 f6 f8
    simp only at f2 f6 f8
    obtain ⟨-, -, hclear, hbm⟩ := (asid_alloc_loop_result s.asid_bitmap NASID 0).2 a bm1 ha
    have ha0 : a ≠ 0 := by
      intro hh
      rw [hh, ih.1] at hclear
      exact absurd hclear (by decide)
    have he_free : e ∈ s.env_free_list := by rw [hl]; exact List.mem_cons_self _ _
    constructor
    · rw [f2, hbm, asid_bit_set, ih.1]; rfl
    · intro x hx
      by_cases hxe : x = e
      · rw [hxe, f6]; exact ha0
      · rcases List.mem_cons.1 hx with hh | hh
        · exact absurd hh hxe
        · rw [f8 x hxe]; exact ih.2 x hh
  induction h with
  | init s0 =>
    constructor
    · rw [env_init_asid_bitmap]
      simp [asid_bit, store_same]
    · intro e he; simp at he
  | alloc_ok parent_id pgdir e s1 hprev hstep ih =>
    exact step_ok _ s1 _ parent_id pgdir e (Reachable_inv c _ _ hprev) ih hstep
  | @alloc_err s live parent_id pgdir r s1 hprev hstep ih =>
    rcases env_alloc_error_inv c s s1 parent_id pgdir r hstep with ⟨-, h1⟩ | ⟨e, rest, -, h1⟩
    · rw [h1]; exact ih
    · rw [h1]
      refine ⟨ih.1, ?_⟩
      intro x hx
      have := ih.2 x hx
      by_cases hxe : x = e
      · subst hxe; simpa [store_same] using this
      · simpa [store_other _ _ _ _ hxe] using this
  | @create s live priority entry pgdir pgdir2 e s2 hprev hstep ih =>
    obtain ⟨s1, halloc, h2⟩ := env_create_inv c s s2 priority entry pgdir pgdir2 e hstep
    have h1 := step_ok s s1 live 0 pgdir e (Reachable_inv c _ _ hprev) ih halloc
    rw [h2]
    refine ⟨by simpa using h1.1, ?_⟩
    intro x hx
    have := h1.2 x hx
    by_cases hxe : x = e
    · subst hxe; simpa [store_same] using this
    · simpa [store_other _ _ _ _ hxe] using this
  | @free s live e pgdir hprev he ih =>
    have hasid : ∀ x, ((env_free c s e pgdir).envs x).env_asid = (s.envs x).env_asid := by
      intro x
      rw [env_free_eq]
      by_cases hx : x = e
      · simp [hx, store_same]
      · simp [store_other _ _ _ _ hx]
    constructor
    · have hbm : (env_free c s e pgdir).asid_bitmap
          = asid_free s.asid_bitmap (s.envs e).env_asid := by rw [env_free_eq]; simp
      rw [hbm, asid_bit_free, ih.1]
      have := ih.2 e he
      simp [Ne.symm this]
    · intro x hx
      rw [hasid]
      exact ih.2 x (List.mem_filter.1 hx).1

/-- C14: ASID 0 is permanently reserved. After `env_init`, on any state, bit 0 of the ASID
bitmap is set; in every state reachable afterwards by `env_alloc`, `env_create` and
`env_free` of live slots it is still set, no live slot holds ASID 0, and a successful
`env_alloc` never gives ASID 0 to the slot it returns; and the first slot allocated after
boot and `env_init` (slot 0) gets ASID 1. -/
theorem asid_zero_reserved (c : Consts) :
    (∀ s0, asid_bit (env_init c s0).asid_bitmap 0 = true) ∧
    (∀ s live, Reachable c s live →
      asid_bit s.asid_bitmap 0 = true ∧
      (∀ e, e ∈ live → (s.envs e).env_asid ≠ 0) ∧
      (∀ parent_id pgdir e s1, env_alloc c s parent_id pgdir = (.ok e, s1) →
        (s1.envs e).env_asid ≠ 0)) ∧
    (∀ parent_id pgdir,
      (env_alloc c (env_init c boot) parent_id pgdir).1 = .ok 0 ∧
      ((env_alloc c (env_init c boot) parent_id pgdir).2.envs 0).env_asid = 1) := by
  refine ⟨?_, ?_, ?_⟩
  · intro s0
    exact (Reachable_asid_zero c _ _ (Reachable.init s0)).1
  · intro s live h
    have h0 := Reachable_asid_zero c s live h
    refine ⟨h0.1, h0.2, ?_⟩
    intro parent_id pgdir e s1 hstep
    exact (Reachable_asid_zero c s1 (e :: live)
      (Reachable.alloc_ok parent_id pgdir e s1 h hstep)).2 e (List.mem_cons_self _ _)
  · intro parent_id pgdir
    obtain ⟨n, hn⟩ : ∃ n, NENV c = n + 1 :=
      ⟨NENV c - 1, by rw [NENV_eq]; have := Nat.two_pow_pos c.LOG2NENV; omega⟩
    have hl : (env_init c boot).env_free_list = 0 :: List.range' 1 n := by
      rw [env_init_free_list, hn, List.range_eq_range']
      simp [List.range'_succ]
    have hb0 : (env_init c boot).asid_bitmap = store (fun _ => 0) 0 (0 ||| 1) := by
      rw [env_init_asid_bitmap]; rfl
    have ha0 : asid_alloc (env_init c boot).asid_bitmap
        = (.ok 1, (asid_alloc (store (fun _ => 0) 0 (0 ||| 1))).2) := by
      rw [hb0]; rfl
    obtain ⟨r0, -, -, -, -, -, -, f6, -, -⟩ :=
      env_alloc_ok_fields c (env_init c boot) parent_id pgdir 0 _ 1 _ hl ha0
    exact ⟨r0, f6⟩

/-- C14 on `sample_two`: bit 0 is set and the live slots 1 and 0 hold ASIDs 2 and 1. -/
theorem asid_zero_reserved_witness :
    Reachable consts10 sample_two [1, 0] ∧
    asid_bit sample_two.asid_bitmap 0 = true ∧
    (∀ e, e ∈ [1, 0] → (sample_two.envs e).env_asid ≠ 0) ∧
    (∀ parent_id pgdir e s1, env_alloc consts10 sample_two parent_id pgdir = (.ok e, s1) →
      (s1.envs e).env_asid ≠ 0) ∧
    (env_alloc consts10 (env_init consts10 boot) 0 0x81000000).1 = .ok 0 ∧
    ((env_alloc consts10 (env_init consts10 boot) 0 0x81000000).2.envs 0).env_asid = 1 :=
  ⟨sample_two_reachable,
    ((asid_zero_reserved consts10).2.1 sample_two [1, 0] sample_two_reachable).1,
    ((asid_zero_reserved consts10).2.1 sample_two [1, 0] sample_two_reachable).2.1,
    ((asid_zero_reserved consts10).2.1 sample_two [1, 0] sample_two_reachable).2.2,
    (asid_zero_reserved consts10).2.2 0 0x81000000⟩

/-! ## C15: `env_create` -/

/-- C16: in every execution of `env_free(e)`, listed as a trace of effects: the first
effect is the write to `satp` of `SATP_MODE_BARE & SATP_MODE` (its mode field is that of
bare mode), the second the `sfence.vma` for `e->env_asid`, and only then come the call of
`destroy_pgdir` on `e->env_pgdir`, which is the one that releases page-table frames, and
after it the call `asid_free(e->env_asid)`: a `destroy_pgdir` or `asid_free` effect is
never at position 0 or 1 of the trace. The state the run ends in is that of `env_free`. -/
theorem env_free_effect_order (c : Consts) (cc : CsrConsts) (s : Kernel) (e pgdir : Nat) :
    (env_free_run c cc s e pgdir).1 = env_free c s e pgdir ∧
    (env_free_run c cc s e pgdir).2 =
      [.csrw_satp (cc.SATP_MODE_BARE &&& cc.SATP_MODE),
        .sfence_vma_asid (s.envs e).env_asid,
        .destroy_pgdir (s.envs e).env_pgdir (s.envs e).env_asid,
        .asid_free (s.envs e).env_asid] ∧
    (cc.SATP_MODE_BARE &&& cc.SATP_MODE) &&& cc.SATP_MODE
      = cc.SATP_MODE_BARE &&& cc.SATP_MODE ∧
    (∀ i pg a, (env_free_run c cc s e pgdir).2.get? i = some (.destroy_pgdir pg a) →
      (env_free_run c cc s e pgdir).2.get? 0
        = some (.csrw_satp (cc.SATP_MODE_BARE &&& cc.SATP_MODE)) ∧
      (env_free_run c cc s e pgdir).2.get? 1 = some (.sfence_vma_asid (s.envs e).env_asid) ∧
      1 < i) ∧
    (∀ i a, (env_free_run c cc s e pgdir).2.get? i = some (.asid_free a) →
      ∃ j pg, 1 < j ∧ j < i ∧
        (env_free_run c cc s e pgdir).2.get? j = some (.destroy_pgdir pg a)) := by
  have htr : (env_free_run c cc s e pgdir).2 =
      [.csrw_satp (cc.SATP_MODE_BARE &&& cc.SATP_MODE),
        .sfence_vma_asid (s.envs e).env_asid,
        .destroy_pgdir (s.envs e).env_pgdir (s.envs e).env_asid,
        .asid_free (s.envs e).env_asid] := by
    simp [env_free_run, store_same]
  refine ⟨rfl, htr, ?_, ?_, ?_⟩
  · rw [Nat.land_assoc, Nat.and_self]
  · intro i pg a hi
    rw [htr] at hi ⊢
    match i, hi with
    | 0, hi => simp at hi
    | 1, hi => simp at hi
    | i + 2, _ => exact ⟨rfl, rfl, by omega⟩
  · intro i a hi
    rw [htr] at hi ⊢
    match i, hi with
    | 0, hi => simp at hi
    | 1, hi => simp at hi
    | 2, hi => simp at hi
    | 3, hi =>
      simp at hi
      exact ⟨2, (s.envs e).env_pgdir, by omega, by omega, by simp [hi]⟩
    | i + 4, hi => simp at hi

/-- C16 on slot 1 of `sample_two` (ASID 2, page directory at 0x81002000). -/
theorem env_free_effect_order_witness :
    (env_free_run consts10 csr_consts sample_two 1 0).2 =
      [.csrw_satp 0, .sfence_vma_asid 2, .destroy_pgdir 0x81002000 2, .asid_free 2] ∧
    (env_free_run consts10 csr_consts sample_two 1 0).2.get? 2 = some (.destroy_pgdir 0x81002000 2) ∧
    ((env_free_run consts10 csr_consts sample_two 1 0).2.get? 0
        = some (.csrw_satp (csr_consts.SATP_MODE_BARE &&& csr_consts.SATP_MODE)) ∧
      (env_free_run consts10 csr_consts sample_two 1 0).2.get? 1
        = some (.sfence_vma_asid (sample_two.envs 1).env_asid) ∧
      1 < 2) :=
  ⟨(env_free_effect_order consts10 csr_consts sample_two 1 0).2.1, rfl,
    (env_free_effect_order consts10 csr_consts sample_two 1 0).2.2.2.1 2 0x81002000 2 rfl⟩

/-! ## C18 and C19: `env_run` -/

/-- A call of `env_run` on a runnable slot with the timer armed leaves for user mode. -/
theorem env_run_resumed (cc : CsrConsts) (m : Machine) (e : Nat)
    (hst : (m.kern.envs e).env_status = .ENV_RUNNABLE) :
    env_run cc m e 0
      = .resumed (outcome_machine (env_run cc m e 0)) (outcome_effects (env_run cc m e 0)) := by
  simp [env_run, hst, outcome_machine, outcome_effects]

/-- A call of `env_run` on a runnable slot stops at `assert(r == 0)` when `sbi_set_timer`
fails. -/
theorem env_run_timer_panic (cc : CsrConsts) (m : Machine) (e : Nat) (r : Int)
    (hst : (m.kern.envs e).env_status = .ENV_RUNNABLE) (hr : r ≠ 0) :
    env_run cc m e r
      = .panic (outcome_machine (env_run cc m e r)) (outcome_effects (env_run cc m e r)) := by
  simp [env_run, hst, hr, outcome_machine, outcome_effects]

/-- The deadline `env_run` passes to `sbi_set_timer` is the static `time`, and `time`
advances by `delta_time` exactly when `sbi_set_timer` returned 0. -/
theorem env_run_time (cc : CsrConsts) (m : Machine) (e : Nat) (r : Int)
    (hst : (m.kern.envs e).env_status = .ENV_RUNNABLE) :
    timer_deadlines (outcome_effects (env_run cc m e r)) = [m.time] ∧
    (r = 0 → (outcome_machine (env_run cc m e r)).time = (m.time + delta_time) % 2 ^ 64) ∧
    (r ≠ 0 → (outcome_machine (env_run cc m e r)).time = m.time) := by
  by_cases hr : r = 0
  · simp [env_run, hst, hr, outcome_machine, outcome_effects, timer_deadlines]
  · simp [env_run, hst, hr, outcome_machine, outcome_effects, timer_deadlines]

/-- A call of `env_run` that leaves for user mode was made with `sbi_set_timer` returning 0
on a runnable slot. -/
theorem env_run_resumed_inv (cc : CsrConsts) (m m1 : Machine) (e : Nat) (r : Int)
    (t : List Effect) (h : env_run cc m e r = .resumed m1 t) :
    (m.kern.envs e).env_status = .ENV_RUNNABLE ∧ r = 0 := by
  by_cases hst : (m.kern.envs e).env_status = .ENV_RUNNABLE
  · by_cases hr : r = 0
    · exact ⟨hst, hr⟩
    · rw [env_run_timer_panic cc m e r hst hr] at h
      exact Outcome.noConfusion h
  · simp [env_run, hst] at h

/-- After `n` completed calls of `env_run` the static `time` is
`20000000 + 30000 * n`, in 64-bit arithmetic. -/
theorem AfterRuns_time (cc : CsrConsts) (n : Nat) (m : Machine) (h : AfterRuns cc n m) :
    m.time = (time_at_boot + delta_time * n) % 2 ^ 64 := by
  induction h with
  | boot m h0 => rw [h0]; rfl
  | other m1 _ heq ih => rw [heq, ih]
  | @run n m e r m1 t _ hstep ih =>
    obtain ⟨hst, hr⟩ := env_run_resumed_inv cc m m1 e r t hstep
    have h1 := (env_run_time cc m e r hst).2.1 hr
    rw [hstep] at h1
    simp only [outcome_machine] at h1
    rw [h1, ih]
    simp only [time_at_boot, delta_time]
    omega

/-- C18: for every state and every slot `e` whose status is `ENV_RUNNABLE`, `env_run(e)` with
the timer armed leaves for user mode, and then: `curenv` is `e`; `cur_pgdir` is the page
directory of `e`; `e.env_runs` is one more than before; when there was an outgoing process
other than `e`, its slot holds the trap frame from the top of the kernel stack and is
otherwise as before, so the frame was saved through the old `curenv`, before `curenv` was
reassigned; every slot other than `e` and the outgoing process is unchanged, trap frame
included; and the trap frame of `e` is its own saved frame (the frame from the kernel stack
when `e` itself was the outgoing process) with `stvec`, `sie` and `sstatus` updated. -/
theorem env_run_switch (cc : CsrConsts) (m : Machine) (e : Nat)
    (hst : (m.kern.envs e).env_status = .ENV_RUNNABLE) :
    ∃ m1 t, env_run cc m e 0 = .resumed m1 t ∧
      m1.kern.curenv = some e ∧
      m1.cur_pgdir = (m1.kern.envs e).env_pgdir ∧
      (m1.kern.envs e).env_pgdir = (m.kern.envs e).env_pgdir ∧
      (m1.kern.envs e).env_runs = (m.kern.envs e).env_runs + 1 ∧
      (∀ cur, m.kern.curenv = some cur → cur ≠ e →
        m1.kern.envs cur = { m.kern.envs cur with env_tf := m.kstack_tf }) ∧
      (∀ x, x ≠ e → m.kern.curenv ≠ some x → m1.kern.envs x = m.kern.envs x) ∧
      (m1.kern.envs e).env_tf =
        { (if m.kern.curenv = some e then m.kstack_tf else (m.kern.envs e).env_tf) with
          stvec := cc.exc_gen_entry
          sie := (if m.kern.curenv = some e then m.kstack_tf
            else (m.kern.envs e).env_tf).sie ||| cc.SIE_STIE
          sstatus := (if m.kern.curenv = some e then m.kstack_tf
            else (m.kern.envs e).env_tf).sstatus ||| cc.SSTATUS_SPIE } := by
  refine ⟨_, _, env_run_resumed cc m e hst, ?_⟩
  cases hcur : m.kern.curenv with
  | none =>
    refine ⟨?_, ?_, ?_, ?_, ?_, ?_, ?_⟩
    · simp [env_run, hst, hcur, outcome_machine]
    · simp [env_run, hst, hcur, outcome_machine, store_same]
    · simp [env_run, hst, hcur, outcome_machine, store_same]
    · simp [env_run, hst, hcur, outcome_machine, store_same]
    · intro cur h; simp at h
    · intro x hx _
      simp [env_run, hst, hcur, outcome_machine, store_other _ _ _ _ hx]
    · simp [env_run, hst, hcur, outcome_machine, store_same]
  | some c0 =>
    by_cases hc : c0 = e
    · subst hc
      refine ⟨?_, ?_, ?_, ?_, ?_, ?_, ?_⟩
      · simp [env_run, hst, hcur, outcome_machine]
      · simp [env_run, hst, hcur, outcome_machine, store_same]
      · simp [env_run, hst, hcur, outcome_machine, store_same]
      · simp [env_run, hst, hcur, outcome_machine, store_same]
      · intro cur h hne
        simp only [Option.some.injEq] at h
        exact absurd h.symm hne
      · intro x hx _
        simp [env_run, hst, hcur, outcome_machine, store_other _ _ _ _ hx]
      · simp [env_run, hst, hcur, outcome_machine, store_same]
    · have hec : e ≠ c0 := fun h => hc h.symm
      refine ⟨?_, ?_, ?_, ?_, ?_, ?_, ?_⟩
      · simp [env_run, hst, hcur, outcome_machine]
      · simp [env_run, hst, hcur, outcome_machine, store_same, store_other _ _ _ _ hec]
      · simp [env_run, hst, hcur, outcome_machine, store_same, store_other _ _ _ _ hec]
      · simp [env_run, hst, hcur, outcome_machine, store_same, store_other _ _ _ _ hec]
      · intro cur h hne
        simp only [Option.some.injEq] at h
        subst h
        simp [env_run, hst, hcur, outcome_machine, store_same, store_other _ _ _ _ hne]
      · intro x hx hxc
        have hxc0 : x ≠ c0 := fun h => hxc (by rw [h])
        simp [env_run, hst, hcur, outcome_machine, store_other _ _ _ _ hx,
          store_other _ _ _ _ hxc0]
      · have hne : ¬ (c0 = e) := hc
        simp [env_run, hst, hcur, outcome_machine, store_same, store_other _ _ _ _ hec, hne]

/-- C18 on `sample_machine`: slot 0 is running and slot 1 is dispatched. -/
theorem env_run_switch_witness :
    (sample_machine.kern.envs 1).env_status = .ENV_RUNNABLE ∧
    sample_machine.kern.curenv = some 0 ∧
    env_run csr_consts sample_machine 1 0
      = .resumed sample_machine_next (outcome_effects (env_run csr_consts sample_machine 1 0)) ∧
    sample_machine_next.kern.curenv = some 1 ∧
    sample_machine_next.cur_pgdir = 0x81002000 ∧
    (sample_machine_next.kern.envs 1).env_runs = 1 ∧
    (sample_machine_next.kern.envs 0).env_tf = sample_machine.kstack_tf ∧
    ∃ m1 t, env_run csr_consts sample_machine 1 0 = .resumed m1 t ∧
      m1.kern.curenv = some 1 ∧
      m1.cur_pgdir = (m1.kern.envs 1).env_pgdir ∧
      (m1.kern.envs 1).env_pgdir = (sample_machine.kern.envs 1).env_pgdir ∧
      (m1.kern.envs 1).env_runs = (sample_machine.kern.envs 1).env_runs + 1 ∧
      (∀ cur, sample_machine.kern.curenv = some cur → cur ≠ 1 →
        m1.kern.envs cur
          = { sample_machine.kern.envs cur with env_tf := sample_machine.kstack_tf }) ∧
      (∀ x, x ≠ 1 → sample_machine.kern.curenv ≠ some x →
        m1.kern.envs x = sample_machine.kern.envs x) ∧
      (m1.kern.envs 1).env_tf =
        { (if sample_machine.kern.curenv = some 1 then sample_machine.kstack_tf
            else (sample_machine.kern.envs 1).env_tf) with
          stvec := csr_consts.exc_gen_entry
          sie := (if sample_machine.kern.curenv = some 1 then sample_machine.kstack_tf
            else (sample_machine.kern.envs 1).env_tf).sie ||| csr_consts.SIE_STIE
          sstatus := (if sample_machine.kern.curenv = some 1 then sample_machine.kstack_tf
            else (sample_machine.kern.envs 1).env_tf).sstatus ||| csr_consts.SSTATUS_SPIE } :=
  ⟨rfl, rfl, rfl, rfl, rfl, rfl, rfl, env_run_switch csr_consts sample_machine 1 rfl⟩

/-- C19: the deadline `env_run` passes to `sbi_set_timer` is the static `time`, which no
clock feeds: in a machine state in which `env_run` has completed `n` calls since boot, the
next call (call number `n`, counting from 0) on a runnable slot passes
`20000000 + 30000 * n` in 64-bit arithmetic, which is exactly `20000000 + 30000 * n` as
long as that fits 64 bits, whatever `sbi_set_timer` returns; when it returns 0 the call
leaves for user mode with `time` advanced by `delta_time = 30000`, and when it does not the
call stops at the `assert` with `time` as it was. -/
theorem env_run_deadline (cc : CsrConsts) (n : Nat) (m : Machine) (e : Nat) (r : Int)
    (h : AfterRuns cc n m) (hst : (m.kern.envs e).env_status = .ENV_RUNNABLE) :
    timer_deadlines (outcome_effects (env_run cc m e r))
      = [(20000000 + 30000 * n) % 2 ^ 64] ∧
    (20000000 + 30000 * n < 2 ^ 64 →
      timer_deadlines (outcome_effects (env_run cc m e r)) = [20000000 + 30000 * n]) ∧
    (r = 0 → ∃ m1 t, env_run cc m e r = .resumed m1 t ∧
      m1.time = (m.time + 30000) % 2 ^ 64 ∧ AfterRuns cc (n + 1) m1) ∧
    (r ≠ 0 → ∃ m1 t, env_run cc m e r = .panic m1 t ∧ m1.time = m.time) := by
  have ht := AfterRuns_time cc n m h
  simp only [time_at_boot, delta_time] at ht
  obtain ⟨h1, h2, h3⟩ := env_run_time cc m e r hst
  refine ⟨?_, ?_, ?_, ?_⟩
  · rw [h1, ht]
  · intro hlt
    rw [h1, ht, Nat.mod_eq_of_lt hlt]
  · intro hr
    subst hr
    refine ⟨_, _, env_run_resumed cc m e hst, h2 rfl, ?_⟩
    exact AfterRuns.run e 0 _ _ h (env_run_resumed cc m e hst)
  · intro hr
    exact ⟨_, _, env_run_timer_panic cc m e r hst hr, h3 hr⟩

/-- C19 on the second call of `env_run` since boot (call number 1): after slot 1 was
dispatched from `sample_machine`, dispatching slot 0 passes the deadline 20030000. -/
theorem env_run_deadline_witness :
    (AfterRuns csr_consts 1 sample_machine_next ∧
      (sample_machine_next.kern.envs 0).env_status = .ENV_RUNNABLE) ∧
    timer_deadlines (outcome_effects (env_run csr_consts sample_machine_next 0 0))
      = [20030000] ∧
    (20000000 + 30000 * 1 < 2 ^ 64 →
      timer_deadlines (outcome_effects (env_run csr_consts sample_machine_next 0 0))
        = [20000000 + 30000 * 1]) ∧
    ((0 : Int) = 0 → ∃ m1 t, env_run csr_consts sample_machine_next 0 0 = .resumed m1 t ∧
      m1.time = (sample_machine_next.time + 30000) % 2 ^ 64 ∧
      AfterRuns csr_consts (1 + 1) m1) ∧
    ((0 : Int) ≠ 0 → ∃ m1 t, env_run csr_consts sample_machine_next 0 0 = .panic m1 t ∧
      m1.time = sample_machine_next.time) :=
  ⟨⟨AfterRuns.run 1 0 sample_machine_next _ (AfterRuns.boot sample_machine rfl)
      (env_run_resumed csr_consts sample_machine 1 rfl), rfl⟩,
    env_run_deadline csr_consts 1 sample_machine_next 0 0
      (AfterRuns.run 1 0 sample_machine_next _ (AfterRuns.boot sample_machine rfl)
        (env_run_resumed csr_consts sample_machine 1 rfl)) rfl⟩

/-! ## C17: `load_icode_mapper` -/

/-- C17, the claim as stated fails: the loader calls `load_icode_mapper` for the first,
unaligned part of a segment with `va = 0x400123` and `offset = 0x123`. The call succeeds,
maps the page of `va` and copies the four source bytes to 0x81200123, the physical address
`va` resolves to; the address `va + offset = 0x400246` resolves to 0x81200246, where nothing
is written. With a page-aligned `va = 0x400000` and the same `offset` the bytes go to
0x81200000, not to the address of `va + offset`. -/
theorem load_icode_mapper_offset_counterexample :
    (load_icode_mapper toy_pmap sample_loader 0 0x400123 0x123 0 (some 0x80300000) 4).1 = 0 ∧
    toy_pmap.get_pa
      (load_icode_mapper toy_pmap sample_loader 0 0x400123 0x123 0 (some 0x80300000) 4).2.pmap_state
      0x81000000 0x400123 = 0x81200123 ∧
    toy_pmap.get_pa
      (load_icode_mapper toy_pmap sample_loader 0 0x400123 0x123 0 (some 0x80300000) 4).2.pmap_state
      0x81000000 (0x400123 + 0x123) = 0x81200246 ∧
    sample_loader.mem 0x80300000 = 0xAA ∧
    (load_icode_mapper toy_pmap sample_loader 0 0x400123 0x123 0 (some 0x80300000) 4).2.mem
      0x81200123 = 0xAA ∧
    (load_icode_mapper toy_pmap sample_loader 0 0x400123 0x123 0 (some 0x80300000) 4).2.mem
      0x81200246 = 0 ∧
    (load_icode_mapper toy_pmap sample_loader 0 0x400000 0x123 0 (some 0x80300000) 4).2.mem
      0x81200000 = 0xAA ∧
    (load_icode_mapper toy_pmap sample_loader 0 0x400000 0x123 0 (some 0x80300000) 4).2.mem
      0x81200123 = 0 :=
  ⟨rfl, rfl, rfl, rfl, rfl, rfl, rfl, rfl⟩

/-- C17, amended: for every call `load_icode_mapper(env, va, offset, perm, src, len)` with
`src` not `NULL` that returns 0, a user page is allocated and mapped with `perm` first
exactly when `is_mapped_page(env.pgdir, va)` is 0, and then the `len` bytes at `src` are
copied to the physical address `get_pa(env.pgdir, va)` that `va` itself resolves to
(`offset` is not added); memory is otherwise as the allocation, if any, left it. -/
theorem load_icode_mapper_copy {σ : Type} (P : Pmap σ) (st : Loader σ)
    (env va offset perm p len : Nat)
    (hok : (load_icode_mapper P st env va offset perm (some p) len).1 = 0) :
    ∃ mem1,
      (P.is_mapped_page st.pmap_state (st.kern.envs env).env_pgdir va ≠ 0 →
        mem1 = st.mem ∧
        (load_icode_mapper P st env va offset perm (some p) len).2.pmap_state = st.pmap_state ∧
        (load_icode_mapper P st env va offset perm (some p) len).2.kern = st.kern) ∧
      (P.is_mapped_page st.pmap_state (st.kern.envs env).env_pgdir va = 0 →
        (P.alloc_page_user st.pmap_state st.mem (st.kern.envs env).env_pgdir
          (st.kern.envs env).env_asid va perm).1 = 0 ∧
        mem1 = (P.alloc_page_user st.pmap_state st.mem (st.kern.envs env).env_pgdir
          (st.kern.envs env).env_asid va perm).2.2.1 ∧
        (load_icode_mapper P st env va offset perm (some p) len).2.pmap_state
          = (P.alloc_page_user st.pmap_state st.mem (st.kern.envs env).env_pgdir
            (st.kern.envs env).env_asid va perm).2.1 ∧
        ((load_icode_mapper P st env va offset perm (some p) len).2.kern.envs env).env_pgdir
          = (P.alloc_page_user st.pmap_state st.mem (st.kern.envs env).env_pgdir
            (st.kern.envs env).env_asid va perm).2.2.2) ∧
      (∀ i, i < len →
        (load_icode_mapper P st env va offset perm (some p) len).2.mem
          (P.get_pa (load_icode_mapper P st env va offset perm (some p) len).2.pmap_state
            ((load_icode_mapper P st env va offset perm (some p) len).2.kern.envs
              env).env_pgdir va + i)
          = mem1 (p + i)) ∧
      (∀ a,
        (a < P.get_pa (load_icode_mapper P st env va offset perm (some p) len).2.pmap_state
            ((load_icode_mapper P st env va offset perm (some p) len).2.kern.envs
              env).env_pgdir va ∨
          P.get_pa (load_icode_mapper P st env va offset perm (some p) len).2.pmap_state
            ((load_icode_mapper P st env va offset perm (some p) len).2.kern.envs
              env).env_pgdir va + len ≤ a) →
        (load_icode_mapper P st env va offset perm (some p) len).2.mem a = mem1 a) := by
  by_cases hm : P.is_mapped_page st.pmap_state (st.kern.envs env).env_pgdir va = 0
  · by_cases hr : (P.alloc_page_user st.pmap_state st.mem (st.kern.envs env).env_pgdir
        (st.kern.envs env).env_asid va perm).1 = 0
    · refine ⟨(P.alloc_page_user st.pmap_state st.mem (st.kern.envs env).env_pgdir
        (st.kern.envs env).env_asid va perm).2.2.1, fun h => absurd hm h, fun _ => ?_, ?_, ?_⟩
      · refine ⟨hr, rfl, ?_, ?_⟩
        · simp [load_icode_mapper, hm, hr]
        · simp [load_icode_mapper, hm, hr, store_same]
      · intro i hi
        simp [load_icode_mapper, hm, hr, store_same, memcpy, hi]
      · intro a ha
        simp only [load_icode_mapper, hm, hr, store_same, memcpy, if_true, ne_eq,
          not_true_eq_false, if_false] at ha ⊢
        have : ¬ (P.get_pa (P.alloc_page_user st.pmap_state st.mem (st.kern.envs env).env_pgdir
            (st.kern.envs env).env_asid va perm).2.1
            (P.alloc_page_user st.pmap_state st.mem (st.kern.envs env).env_pgdir
              (st.kern.envs env).env_asid va perm).2.2.2 va ≤ a ∧
            a < P.get_pa (P.alloc_page_user st.pmap_state st.mem (st.kern.envs env).env_pgdir
              (st.kern.envs env).env_asid va perm).2.1
              (P.alloc_page_user st.pmap_state st.mem (st.kern.envs env).env_pgdir
                (st.kern.envs env).env_asid va perm).2.2.2 va + len) := by
          omega
        simp [this]
    · exfalso
      simp [load_icode_mapper, hm, hr] at hok
  · refine ⟨st.mem, fun _ => ?_, fun h => absurd h hm, ?_, ?_⟩
    · refine ⟨rfl, ?_, ?_⟩
      · simp [load_icode_mapper, hm]
      · simp [load_icode_mapper, hm]
    · intro i hi
      simp [load_icode_mapper, hm, memcpy, hi]
    · intro a ha
      simp only [load_icode_mapper, hm, memcpy, if_false, ne_eq, not_true_eq_false] at ha ⊢
      have : ¬ (P.get_pa st.pmap_state (st.kern.envs env).env_pgdir va ≤ a ∧
          a < P.get_pa st.pmap_state (st.kern.envs env).env_pgdir va + len) := by
        omega
      simp [this]

/-- C17 amended, on the first, unaligned part of a segment: `va = 0x400123`, four bytes,
no page mapped yet. -/
theorem load_icode_mapper_copy_witness :
    sample_mapper_call.1 = 0 ∧
    ∃ mem1,
      (toy_pmap.is_mapped_page sample_loader.pmap_state
          (sample_loader.kern.envs 0).env_pgdir 0x400123 ≠ 0 →
        mem1 = sample_loader.mem ∧
        sample_mapper_call.2.pmap_state = sample_loader.pmap_state ∧
        sample_mapper_call.2.kern = sample_loader.kern) ∧
      (toy_pmap.is_mapped_page sample_loader.pmap_state
          (sample_loader.kern.envs 0).env_pgdir 0x400123 = 0 →
        (toy_pmap.alloc_page_user sample_loader.pmap_state sample_loader.mem
          (sample_loader.kern.envs 0).env_pgdir
          (sample_loader.kern.envs 0).env_asid 0x400123 7).1 = 0 ∧
        mem1 = (toy_pmap.alloc_page_user sample_loader.pmap_state sample_loader.mem
          (sample_loader.kern.envs 0).env_pgdir
          (sample_loader.kern.envs 0).env_asid 0x400123 7).2.2.1 ∧
        sample_mapper_call.2.pmap_state
          = (toy_pmap.alloc_page_user sample_loader.pmap_state sample_loader.mem
          (sample_loader.kern.envs 0).env_pgdir
            (sample_loader.kern.envs 0).env_asid 0x400123 7).2.1 ∧
        (sample_mapper_call.2.kern.envs 0).env_pgdir
          = (toy_pmap.alloc_page_user sample_loader.pmap_state sample_loader.mem
          (sample_loader.kern.envs 0).env_pgdir
            (sample_loader.kern.envs 0).env_asid 0x400123 7).2.2.2) ∧
      (∀ i, i < 4 →
        sample_mapper_call.2.mem
          (toy_pmap.get_pa sample_mapper_call.2.pmap_state
            (sample_mapper_call.2.kern.envs
              0).env_pgdir 0x400123 + i)
          = mem1 (0x80300000 + i)) ∧
      (∀ a,
        (a < toy_pmap.get_pa sample_mapper_call.2.pmap_state
            (sample_mapper_call.2.kern.envs
              0).env_pgdir 0x400123 ∨
          toy_pmap.get_pa sample_mapper_call.2.pmap_state
            (sample_mapper_call.2.kern.envs
              0).env_pgdir 0x400123 + 4 ≤ a) →
        sample_mapper_call.2.mem a = mem1 a) :=
  ⟨rfl, load_icode_mapper_copy toy_pmap sample_loader 0 0x400123 0x123 7 0x80300000 4 rfl⟩

end RiscvMos
